import Mathlib

/-!
Verification of the day-classification and session-attribution pipeline of the
trading-analytics repository (ingestion.py, classifier.py, analytics.py,
predictor.py, config.py).

The Python code is shallowly embedded: prices and probabilities are modelled
as rationals (the source uses floats, but every claim under scrutiny concerns
exact comparisons on decimally representable values), timestamps as natural
numbers (a calendar date as an epoch-day ordinal, a time of day as a
minute-of-day), DataFrames as lists of records, and the in-place mutation
relevant to the aliasing claim as an explicit heap of DataFrame cells.

Time-of-day comparisons in the source are performed on zero-padded "HH:MM"
strings; lexicographic order on such strings coincides with numeric order on
the minute-of-day, which is how they are embedded here.
-/

/- ===================== config.py ===================== -/

/-- `VALIDACIONES["precio_min"]` from config.py. -/
def precio_min : ℚ := 1000

/-- `VALIDACIONES["precio_max"]` from config.py. -/
def precio_max : ℚ := 50000

/-- `VALIDACIONES["volumen_min"]` from config.py. -/
def volumen_min : ℤ := 0

/-- `VALIDACIONES["check_high_low"]` from config.py. -/
def check_high_low : Bool := true

/-- `VALIDACIONES["check_ohlc"]` from config.py. -/
def check_ohlc : Bool := true

/-- The three trading sessions (the strings "ASIA", "EUROPA", "NY"). -/
inductive Sesion where
  | ASIA
  | EUROPA
  | NY
deriving DecidableEq

/-- A session window: start and end as minute-of-day (the source stores
zero-padded "HH:MM" strings; lexicographic string order equals numeric
minute order, so the embedding uses minutes). -/
structure HorarioSesion where
  inicio : ℕ
  fin : ℕ
deriving DecidableEq

/-- The record returned by `obtener_horarios_sesion_et` in config.py. -/
structure HorariosSesiones where
  ASIA : HorarioSesion
  EUROPA : HorarioSesion
  NY : HorarioSesion
deriving DecidableEq

/-- `obtener_horarios_sesion_et` from config.py: the session windows in
New-York wall-clock time (ASIA 19:00-04:00, EUROPA 03:00-12:00,
NY 09:30-17:00).  The function ignores its `fecha` argument and returns
this constant table. -/
def obtener_horarios_sesion_et : HorariosSesiones :=
  { ASIA := ⟨19 * 60, 4 * 60⟩
    EUROPA := ⟨3 * 60, 12 * 60⟩
    NY := ⟨9 * 60 + 30, 17 * 60⟩ }

/- ===================== DST logic (config.py) ===================== -/

/-- A wall-clock instant as carried by a Python `datetime`:
year, month, day, hour, minute (all integers). -/
structure FechaHora where
  anio : ℤ
  mes : ℤ
  dia : ℤ
  hora : ℤ
  minuto : ℤ
deriving DecidableEq

/-- Days from 1970-01-01 in the proleptic Gregorian calendar (the calendar
Python's `datetime` uses); standard civil-from-days formula. -/
def diasDesdeEpoca (anio mes dia : ℤ) : ℤ :=
  let y := if mes ≤ 2 then anio - 1 else anio
  let era := (if 0 ≤ y then y else y - 399) / 400
  let yoe := y - era * 400
  let mp := (mes + 9) % 12
  let doy := (153 * mp + 2) / 5 + dia - 1
  let doe := yoe * 365 + yoe / 4 - yoe / 100 + doy
  era * 146097 + doe - 719468

/-- `datetime(anio, mes, dia).weekday()`: Monday = 0 ... Sunday = 6
(1970-01-01 was a Thursday, hence the +3). -/
def weekday (anio mes dia : ℤ) : ℤ :=
  (diasDesdeEpoca anio mes dia + 3) % 7

/-- The `segundo_domingo_marzo` computation inside `_es_dst_usa`
(config.py): day-of-month of the second Sunday of March. -/
def segundo_domingo_marzo (anio : ℤ) : ℤ :=
  1 + (6 - weekday anio 3 1) % 7 + 7

/-- The `primer_domingo_nov` computation inside `_es_dst_usa`
(config.py): day-of-month of the first Sunday of November. -/
def primer_domingo_nov (anio : ℤ) : ℤ :=
  1 + (6 - weekday anio 11 1) % 7

/-- `_es_dst_usa` from config.py.  Note that the source reads only
`fecha.year`, `fecha.month`, `fecha.day`: the hour and minute of the
given datetime are never consulted. -/
def es_dst_usa (fecha : FechaHora) : Bool :=
  let mes := fecha.mes
  let dia := fecha.dia
  if mes < 3 ∨ 11 < mes then false
  else if 3 < mes ∧ mes < 11 then true
  else if mes = 3 then decide (segundo_domingo_marzo fecha.anio ≤ dia)
  else if mes = 11 then decide (dia < primer_domingo_nov fecha.anio)
  else true

/-- The DST window exactly as the claim states it (instant granularity):
the instant lies on or after 02:00 of the second Sunday of March of its
year and strictly before 02:00 of the first Sunday of November of its
year.  This follows the claim's words, to be compared with `es_dst_usa`. -/
def dst_claim_instante (f : FechaHora) : Bool :=
  let ssm := segundo_domingo_marzo f.anio
  let fsn := primer_domingo_nov f.anio
  decide ((3 < f.mes ∨ (f.mes = 3 ∧ ssm < f.dia) ∨ (f.mes = 3 ∧ f.dia = ssm ∧ 2 ≤ f.hora)) ∧
          (f.mes < 11 ∨ (f.mes = 11 ∧ f.dia < fsn) ∨ (f.mes = 11 ∧ f.dia = fsn ∧ f.hora < 2)))

/-- The DST window at day granularity, which is what the code implements:
the date is on or after the second Sunday of March and strictly before
the first Sunday of November (both recomputed from the calendar rule for
the date's year); the time of day is ignored. -/
def dst_claim_dia (f : FechaHora) : Bool :=
  decide ((3 < f.mes ∨ (f.mes = 3 ∧ segundo_domingo_marzo f.anio ≤ f.dia)) ∧
          (f.mes < 11 ∨ (f.mes = 11 ∧ f.dia < primer_domingo_nov f.anio)))

/- ===================== session identification (ingestion.py) ============ -/

/-- `DataIngestion._identificar_sesion` from ingestion.py, with the
timestamp's wall-clock time of day given as a minute-of-day (the source
formats it as a zero-padded "HH:MM" string and compares strings
lexicographically, which coincides with numeric minute order). -/
def identificar_sesion (hora : ℕ) : Sesion :=
  let sesiones := obtener_horarios_sesion_et
  if sesiones.ASIA.inicio ≤ hora ∨ hora < sesiones.ASIA.fin then Sesion.ASIA
  else if sesiones.EUROPA.inicio ≤ hora ∧ hora < sesiones.EUROPA.fin then Sesion.EUROPA
  else if sesiones.NY.inicio ≤ hora ∧ hora < sesiones.NY.fin then Sesion.NY
  else Sesion.NY

/-- The session assignment exactly as the claim words it: ASIA for
19:00 ≤ t or t < 04:00; otherwise EUROPA for 03:00 ≤ t < 12:00;
otherwise NY for 09:30 ≤ t < 17:00; every remaining time (the
17:00-19:00 gap) is NY as the post-market fallback. -/
def sesion_segun_claim (t : ℕ) : Sesion :=
  if 19 * 60 ≤ t ∨ t < 4 * 60 then Sesion.ASIA
  else if 3 * 60 ≤ t ∧ t < 12 * 60 then Sesion.EUROPA
  else if 9 * 60 + 30 ≤ t ∧ t < 17 * 60 then Sesion.NY
  else Sesion.NY

/- ===================== data model (ingestion.py) ===================== -/

/-- A timestamp after timezone normalization: the calendar date as an
epoch-day ordinal and the wall-clock time as a minute-of-day.  (The
display-only calendar columns `dia_mes`, `mes`, `año` derived in
`enriquecer_datos` are functions of `fecha` alone and are not consulted by
any analysed code path, so they are not carried separately.) -/
structure Dt where
  fecha : ℕ
  hora : ℕ
deriving DecidableEq

/-- Total order key on timestamps (minutes since the epoch), used to embed
`sort_values('datetime')` and the temporal-gap differences. -/
def Dt.indice (d : Dt) : ℕ := d.fecha * 1440 + d.hora

/-- One raw candle row as parsed by `cargar_datos` (`datetime;open;high;
low;close;volume`).  `open` is a Lean keyword, hence the field `open_`. -/
structure Candle where
  datetime : Dt
  open_ : ℚ
  high : ℚ
  low : ℚ
  close : ℚ
  volume : ℤ
deriving DecidableEq

/-- Minimum of a price column; `None` for an empty column (pandas yields
NaN there, and every comparison against NaN is false, which the `Option`
encoding reproduces). -/
def minimoQ : List ℚ → Option ℚ
  | [] => none
  | x :: xs =>
    match minimoQ xs with
    | none => some x
    | some m => some (min x m)

/-- Maximum of a price column; `None` for an empty column. -/
def maximoQ : List ℚ → Option ℚ
  | [] => none
  | x :: xs =>
    match maximoQ xs with
    | none => some x
    | some m => some (max x m)

/-- `min_val < VALIDACIONES["precio_min"]` with pandas NaN semantics. -/
def minBajoLimite (l : List ℚ) : Bool :=
  match minimoQ l with
  | none => false
  | some m => decide (m < precio_min)

/-- `max_val > VALIDACIONES["precio_max"]` with pandas NaN semantics. -/
def maxSobreLimite (l : List ℚ) : Bool :=
  match maximoQ l with
  | none => false
  | some m => decide (precio_max < m)

/-- The outcome of `validar_datos`: the returned flag, the accumulated
`self.errores` / `self.warnings` messages, and `self.df` after the
`sort_values('datetime')` reassignment performed by validation step 7. -/
structure ResultadoValidacion where
  ok : Bool
  errores : List String
  warnings : List String
  df : List Candle

/-- The four price columns checked by validation step 2, in source order. -/
def columnasPrecio (df : List Candle) : List (String × List ℚ) :=
  [("open", df.map (·.open_)), ("high", df.map (·.high)),
   ("low", df.map (·.low)), ("close", df.map (·.close))]

/-- Error messages of validation step 2 (price range), in source order. -/
def erroresPrecios (df : List Candle) : List String :=
  (columnasPrecio df).flatMap fun par =>
    (if minBajoLimite par.2 then
      [par.1 ++ ": precio mínimo (" ++ toString ((minimoQ par.2).getD 0) ++ ") fuera de rango"]
     else []) ++
    (if maxSobreLimite par.2 then
      [par.1 ++ ": precio máximo (" ++ toString ((maximoQ par.2).getD 0) ++ ") fuera de rango"]
     else [])

/-- `DataIngestion.validar_datos` from ingestion.py: every check is
evaluated (none short-circuits another); out-of-range prices, negative
volume, High < Low and OHLC-outside-range are errors that clear the flag,
while duplicate timestamps and temporal gaps only append warnings.  The
null-value check of step 1 is vacuous in this embedding because the typed
rows cannot hold NaN. -/
def validar_datos (df : List Candle) : ResultadoValidacion :=
  let vol_negativo := df.countP fun r => decide (r.volume < volumen_min)
  let invalidos_hl := df.countP fun r => decide (r.high < r.low)
  let invalidos_open := df.countP fun r => decide (r.open_ > r.high ∨ r.open_ < r.low)
  let invalidos_close := df.countP fun r => decide (r.close > r.high ∨ r.close < r.low)
  let e_precios := (columnasPrecio df).any fun par => minBajoLimite par.2 || maxSobreLimite par.2
  let e_volumen := decide (0 < vol_negativo)
  let e_high_low := check_high_low && decide (0 < invalidos_hl)
  let e_open := check_ohlc && decide (0 < invalidos_open)
  let e_close := check_ohlc && decide (0 < invalidos_close)
  let duplicados := df.countP fun r =>
    decide (1 < df.countP fun s => decide (s.datetime = r.datetime))
  let ordenado := List.insertionSort (fun a b => a.datetime.indice ≤ b.datetime.indice) df
  let gaps := (ordenado.zip ordenado.tail).countP fun par =>
    decide (par.1.datetime.indice + 5 < par.2.datetime.indice)
  { ok := !(e_precios || e_volumen || e_high_low || e_open || e_close)
    errores :=
      erroresPrecios df ++
      (if e_volumen then [toString vol_negativo ++ " registros con volumen negativo"] else []) ++
      (if e_high_low then [toString invalidos_hl ++ " velas con High < Low"] else []) ++
      (if e_open then [toString invalidos_open ++ " velas con Open fuera de rango H/L"] else []) ++
      (if e_close then [toString invalidos_close ++ " velas con Close fuera de rango H/L"] else [])
    warnings :=
      (if 0 < duplicados then [toString duplicados ++ " timestamps duplicados encontrados"] else []) ++
      (if 0 < gaps then [toString gaps ++ " gaps temporales detectados (>5 min)"] else [])
    df := ordenado }

/-- English weekday names as produced by `Series.dt.day_name()`, indexed
Monday = 0 (1970-01-01, epoch day 0, was a Thursday). -/
def nombreDia (fecha : ℕ) : String :=
  ["Monday", "Tuesday", "Wednesday", "Thursday", "Friday", "Saturday", "Sunday"].getD
    ((fecha + 3) % 7) ""

/-- One enriched per-minute row, after `enriquecer_datos`. -/
structure Vela where
  datetime : Dt
  open_ : ℚ
  high : ℚ
  low : ℚ
  close : ℚ
  volume : ℤ
  fecha : ℕ
  hora : ℕ
  dia_semana : String
  rango : ℚ
  sesion : Sesion
deriving DecidableEq

/-- `DataIngestion.enriquecer_datos` from ingestion.py.  The pytz timezone
conversion (with its logged degraded-mode passthrough) is abstracted as the
parameter `tzConv`; afterwards the calendar fields, the per-candle range
`high - low` and the session tag are derived exactly as in the source. -/
def enriquecer_datos (tzConv : Dt → Dt) (df : List Candle) : List Vela :=
  df.map fun c =>
    let dt := tzConv c.datetime
    { datetime := dt
      open_ := c.open_
      high := c.high
      low := c.low
      close := c.close
      volume := c.volume
      fecha := dt.fecha
      hora := dt.hora
      dia_semana := nombreDia dt.fecha
      rango := c.high - c.low
      sesion := identificar_sesion dt.hora }

/-- The pipeline stages of `DataIngestion.procesar`, for tracing which
stages run. -/
inductive Etapa where
  | cargar
  | validar
  | enriquecer
  | guardar
  | resumen
deriving DecidableEq

/-- `DataIngestion.procesar` from ingestion.py: load, validate, enrich,
optionally persist and print.  `carga` is the outcome of `cargar_datos`
(`none` when loading failed).  The second component records, in order, the
stages that actually executed. -/
def procesar (tzConv : Dt → Dt) (carga : Option (List Candle)) (guardar mostrar : Bool) :
    Option (List Vela) × List Etapa :=
  match carga with
  | none => (none, [Etapa.cargar])
  | some df =>
    let v := validar_datos df
    if v.ok then
      let df2 := enriquecer_datos tzConv v.df
      (some df2,
        [Etapa.cargar, Etapa.validar, Etapa.enriquecer] ++
          (if guardar then [Etapa.guardar] else []) ++
          (if mostrar then [Etapa.resumen] else []))
    else
      (none, [Etapa.cargar, Etapa.validar])

/-- A one-row dataset holding the claim's inverted candle
(high = 100 < low = 105). -/
def dfInvertido : List Candle :=
  [{ datetime := ⟨0, 600⟩, open_ := 104, high := 100, low := 105, close := 103, volume := 10 }]

/- ============ classifier.py: daily stats, percentiles, classification ===== -/

/-- `direccion` of a change: ALCISTA for positive, BAJISTA for negative,
NEUTRO for zero (classifier.py / analytics.py lambda). -/
inductive Direccion where
  | ALCISTA
  | BAJISTA
  | NEUTRO
deriving DecidableEq

/-- The three day-strength tiers. -/
inductive Clasificacion where
  | FUERTE
  | INTERMEDIO
  | LATERAL
deriving DecidableEq

/-- The lambda used for the `direccion` columns. -/
def direccionDe (x : ℚ) : Direccion :=
  if 0 < x then Direccion.ALCISTA else if x < 0 then Direccion.BAJISTA else Direccion.NEUTRO

/-- `Series.mean()`: NaN (here `none`) on an empty column. -/
def promedioQ (l : List ℚ) : Option ℚ :=
  match l with
  | [] => none
  | _ => some (l.sum / l.length)

/-- Sample variance with ddof = 1, as used by `Series.std()`;
NaN (here `none`) when fewer than two values. -/
def varianzaMuestral (l : List ℚ) : Option ℚ :=
  if 2 ≤ l.length then
    some ((l.map fun x => (x - l.sum / l.length) ^ 2).sum / ((l.length : ℚ) - 1))
  else none

/-- `Series.std()`: the square root of the sample variance.  `ℚ` has no
exact square root, so the (floating-point) square root is abstracted as the
parameter `sqrt`; no claim under verification depends on its values. -/
def desviacionMuestral (sqrt : ℚ → ℚ) (l : List ℚ) : Option ℚ :=
  (varianzaMuestral l).map sqrt

/-- The linear interpolation at `h = (n-1)*q/100` between neighbouring
order statistics of an (already sorted) array, the default method of
`np.percentile`.  (`np.percentile` raises on an empty array; the `[]`
branch is unreachable through the pipeline.) -/
def interpolarOrdenada (s : List ℚ) (q : ℚ) : ℚ :=
  match s with
  | [] => 0
  | x :: xs =>
    let hq : ℚ := (xs.length : ℚ) * q / 100
    let i : ℕ := hq.floor.toNat
    let g : ℚ := hq - (hq.floor : ℚ)
    let lo := (x :: xs).getD i x
    let hi := (x :: xs).getD (Nat.min (i + 1) xs.length) x
    lo + g * (hi - lo)

/-- `np.percentile(valores, q)`: sort ascending and interpolate. -/
def percentileQ (l : List ℚ) (q : ℚ) : ℚ :=
  interpolarOrdenada (List.insertionSort (· ≤ ·) l) q

/-- The `self.percentiles` snapshot produced by `calcular_percentiles`
(classifier.py).  `min`, `max`, `mean`, `std` are `Option` because pandas
yields NaN for them on degenerate input. -/
structure Percentiles where
  p33 : ℚ
  p50 : ℚ
  p67 : ℚ
  p75 : ℚ
  p90 : ℚ
  min : Option ℚ
  max : Option ℚ
  mean : Option ℚ
  std : Option ℚ
deriving DecidableEq

/-- `DayClassifier.calcular_percentiles` from classifier.py, over the
chosen metric column `valores`. -/
def calcular_percentiles (sqrt : ℚ → ℚ) (valores : List ℚ) : Percentiles :=
  { p33 := percentileQ valores (3333 / 100)
    p50 := percentileQ valores 50
    p67 := percentileQ valores (6667 / 100)
    p75 := percentileQ valores 75
    p90 := percentileQ valores 90
    min := minimoQ valores
    max := maximoQ valores
    mean := promedioQ valores
    std := desviacionMuestral sqrt valores }

/-- One row of `self.stats_diarias` (classifier.py).  `clasificacion` and
`es_outlier` are the columns added later by `clasificar_dias`, hence
`Option` (absent until that method runs). -/
structure DailyStat where
  fecha : ℕ
  high : ℚ
  low : ℚ
  open_ : ℚ
  close : ℚ
  volume : ℤ
  rango : ℚ
  num_velas : ℕ
  rango_diario : ℚ
  cambio_diario : ℚ
  cambio_pct : ℚ
  direccion : Direccion
  volatilidad : Option ℚ
  dia_semana : String
  clasificacion : Option Clasificacion
  es_outlier : Option Bool
deriving DecidableEq

/-- The sorted unique group keys of `df.groupby('fecha')`. -/
def fechasUnicas (df : List Vela) : List ℕ :=
  (List.insertionSort (· ≤ ·) (df.map (·.fecha))).dedup

/-- Aggregation of one day's rows, exactly the column recipe of
`calcular_estadisticas_diarias`: high = max, low = min, open = first,
close = last, volume = sum, rango = sum, count, then the derived columns.
The `[]` case cannot be reached from a group key. -/
def aggDia (sqrt : ℚ → ℚ) (f : ℕ) : List Vela → DailyStat
  | [] =>
    { fecha := f, high := 0, low := 0, open_ := 0, close := 0, volume := 0, rango := 0,
      num_velas := 0, rango_diario := 0, cambio_diario := 0, cambio_pct := 0,
      direccion := Direccion.NEUTRO, volatilidad := none, dia_semana := nombreDia f,
      clasificacion := none, es_outlier := none }
  | v :: resto =>
    let grupo := v :: resto
    let hi := (maximoQ (grupo.map (·.high))).getD 0
    let lo := (minimoQ (grupo.map (·.low))).getD 0
    let cierre := (grupo.getLast (by simp [grupo])).close
    let cambio := cierre - v.open_
    { fecha := f
      high := hi
      low := lo
      open_ := v.open_
      close := cierre
      volume := (grupo.map (·.volume)).sum
      rango := (grupo.map (·.rango)).sum
      num_velas := grupo.length
      rango_diario := hi - lo
      cambio_diario := cambio
      cambio_pct := cambio / v.open_ * 100
      direccion := direccionDe cambio
      volatilidad := desviacionMuestral sqrt (grupo.map (·.close))
      dia_semana := nombreDia f
      clasificacion := none
      es_outlier := none }

/-- `DayClassifier.calcular_estadisticas_diarias` from classifier.py:
group the enriched rows by calendar date and aggregate each group. -/
def calcular_estadisticas_diarias (sqrt : ℚ → ℚ) (df : List Vela) : List DailyStat :=
  (fechasUnicas df).map fun f => aggDia sqrt f (df.filter fun v => decide (v.fecha = f))

/-- The inner `clasificar` closure of `clasificar_dias`: FUERTE when the
value is ≥ p67, else INTERMEDIO when ≥ p33, else LATERAL. -/
def clasificar_valor (ps : Percentiles) (valor : ℚ) : Clasificacion :=
  if ps.p67 ≤ valor then Clasificacion.FUERTE
  else if ps.p33 ≤ valor then Clasificacion.INTERMEDIO
  else Clasificacion.LATERAL

/-- The outlier flag of `clasificar_dias`:
`metric > mean + 2*std`, with NaN mean/std making the comparison false. -/
def es_outlier_valor (ps : Percentiles) (valor : ℚ) : Bool :=
  match ps.mean, ps.std with
  | some m, some s => decide (m + 2 * s < valor)
  | _, _ => false

/-- `DayClassifier.clasificar_dias` from classifier.py: uses the memoized
`self.percentiles` when present (`percentiles?`), otherwise computes them
from the metric column, then adds the `clasificacion` and `es_outlier`
columns to every row of `stats_diarias`. -/
def clasificar_dias (sqrt : ℚ → ℚ) (metrica : DailyStat → ℚ) (stats : List DailyStat)
    (percentiles? : Option Percentiles) : List DailyStat :=
  let ps :=
    match percentiles? with
    | some p => p
    | none => calcular_percentiles sqrt (stats.map metrica)
  stats.map fun d =>
    { d with
      clasificacion := some (clasificar_valor ps (metrica d))
      es_outlier := some (es_outlier_valor ps (metrica d)) }

/-- A daily-stats row whose classification metric (`rango_diario`) is `r`;
used to build concrete datasets in witnesses. -/
def diaRango (f : ℕ) (r : ℚ) : DailyStat :=
  { fecha := f, high := r, low := 0, open_ := 5000, close := 5000, volume := 100, rango := r,
    num_velas := 1, rango_diario := r, cambio_diario := 0, cambio_pct := 0,
    direccion := Direccion.NEUTRO, volatilidad := none, dia_semana := nombreDia f,
    clasificacion := none, es_outlier := none }

/-- A hypothetical percentile snapshot with mean = 100 and std = 20, the
statistics fixed by the outlier claim. -/
def psHipotetico : Percentiles :=
  { p33 := 90, p50 := 100, p67 := 110, p75 := 115, p90 := 130,
    min := some 60, max := some 150, mean := some 100, std := some 20 }

/-- The output of `clasificar_dias` on one metric-141 day with the
claim's hypothetical mean-100/std-20 snapshot preset. -/
def clasificadosC2 : List DailyStat :=
  clasificar_dias (fun q => q) (·.rango_diario) [diaRango 0 141] (some psHipotetico)

/-- A concrete three-day dataset for the classification witness. -/
def statsC3 : List DailyStat := [diaRango 0 10, diaRango 1 20, diaRango 2 30]

/-- `clasificar_dias` on `statsC3` with percentiles computed from the data. -/
def clasificadosC3 : List DailyStat :=
  clasificar_dias (fun q => q) (·.rango_diario) statsC3 none

/- ============ analytics.py: per-session statistics ===================== -/

/-- Numeric index of a session, matching the lexicographic order of the
strings "ASIA" < "EUROPA" < "NY" used by pandas when sorting group keys. -/
def Sesion.idx : Sesion → ℕ
  | Sesion.ASIA => 0
  | Sesion.EUROPA => 1
  | Sesion.NY => 2

/-- One row of `self.stats_sesiones` (analytics.py): the aggregate of one
(date, session) group, with the summed per-candle range renamed
`rango_total` and the net excursion `rango_sesion = high - low`. -/
structure SessionStat where
  fecha : ℕ
  sesion : Sesion
  high : ℚ
  low : ℚ
  open_ : ℚ
  close : ℚ
  volume : ℤ
  rango_total : ℚ
  num_velas : ℕ
  rango_sesion : ℚ
  cambio_sesion : ℚ
  cambio_pct : ℚ
  direccion : Direccion
deriving DecidableEq

/-- The sorted unique keys of `df.groupby(['fecha', 'sesion'])`. -/
def clavesSesion (df : List Vela) : List (ℕ × Sesion) :=
  (List.insertionSort (fun a b => a.1 * 4 + a.2.idx ≤ b.1 * 4 + b.2.idx)
    (df.map fun v => (v.fecha, v.sesion))).dedup

/-- Aggregation of one (date, session) group, exactly the column recipe of
`calcular_estadisticas_por_sesion`.  The `[]` case cannot be reached from a
group key. -/
def aggSesion (f : ℕ) (ses : Sesion) : List Vela → SessionStat
  | [] =>
    { fecha := f, sesion := ses, high := 0, low := 0, open_ := 0, close := 0, volume := 0,
      rango_total := 0, num_velas := 0, rango_sesion := 0, cambio_sesion := 0,
      cambio_pct := 0, direccion := Direccion.NEUTRO }
  | v :: resto =>
    let grupo := v :: resto
    let hi := (maximoQ (grupo.map (·.high))).getD 0
    let lo := (minimoQ (grupo.map (·.low))).getD 0
    let cierre := (grupo.getLast (by simp [grupo])).close
    let cambio := cierre - v.open_
    { fecha := f
      sesion := ses
      high := hi
      low := lo
      open_ := v.open_
      close := cierre
      volume := (grupo.map (·.volume)).sum
      rango_total := (grupo.map (·.rango)).sum
      num_velas := grupo.length
      rango_sesion := hi - lo
      cambio_sesion := cambio
      cambio_pct := cambio / v.open_ * 100
      direccion := direccionDe cambio }

/-- `SessionAnalytics.calcular_estadisticas_por_sesion` from analytics.py:
group the enriched rows by (date, session) and aggregate each group. -/
def calcular_estadisticas_por_sesion (df : List Vela) : List SessionStat :=
  (clavesSesion df).map fun k =>
    aggSesion k.1 k.2 (df.filter fun v => decide (v.fecha = k.1 ∧ v.sesion = k.2))

/-- A one-row dataset passing every hard validation check. -/
def dfValido : List Candle :=
  [{ datetime := ⟨0, 600⟩, open_ := 5000, high := 5010, low := 4990,
     close := 5005, volume := 100 }]

/- ============ predictor.py: conditional-probability mining ============== -/

/-- The value of the date-by-session pivot of `rango_sesion` at one cell:
the (unique, since the frame comes from a groupby) row for that key, `none`
for the NaN holes of the pivot. -/
def pivotValor (stats : List SessionStat) (f : ℕ) (s : Sesion) : Option ℚ :=
  (stats.find? fun r => decide (r.fecha = f ∧ r.sesion = s)).map (·.rango_sesion)

/-- The sorted unique dates of the pivot index. -/
def fechasPivot (stats : List SessionStat) : List ℕ :=
  (List.insertionSort (· ≤ ·) (stats.map (·.fecha))).dedup

/-- One pivot column with its NaN holes dropped, as pandas
`quantile`/`median` (skipna) see it. -/
def columnaPivot (stats : List SessionStat) (s : Sesion) : List ℚ :=
  (fechasPivot stats).filterMap fun f => pivotValor stats f s

/-- `'X' in pivot.columns`: the session occurs in the session-stats frame. -/
def tieneSesion (stats : List SessionStat) (s : Sesion) : Bool :=
  stats.any fun r => decide (r.sesion = s)

/-- `Series.median()`: NaN on an all-NaN column, else the linear-interpolation
50th percentile. -/
def medianaOpt (l : List ℚ) : Option ℚ :=
  match l with
  | [] => none
  | _ => some (percentileQ l 50)

/-- The conditioning subset of `analizar_patron_sesion_previa`: the pivot
rows (dates) whose value for the first session is ≥ that session's own
0.75 quantile (`quantile(0.75)`, linear interpolation); rows where the
first session is NaN compare false and drop out. -/
def fechasPrimeraFuerte (stats : List SessionStat) (s1 : Sesion) : List ℕ :=
  let p75 := percentileQ (columnaPivot stats s1) 75
  (fechasPivot stats).filter fun f =>
    match pivotValor stats f s1 with
    | some v => decide (p75 ≤ v)
    | none => false

/-- The conditional probability (as a percentage) that the second session's
range is ≥ the median of the second session's ranges over the conditioning
subset, among the conditioning subset; NaN comparisons count false. -/
def probSegundaAlta (stats : List SessionStat) (s1 s2 : Sesion) : ℚ :=
  let subset := fechasPrimeraFuerte stats s1
  let valoresSegunda := subset.filterMap fun f => pivotValor stats f s2
  let altas := subset.countP fun f =>
    match pivotValor stats f s2, medianaOpt valoresSegunda with
    | some v, some mediana => decide (mediana ≤ v)
    | _, _ => false
  (altas : ℚ) / (subset.length : ℚ) * 100

/-- One entry of the `patrones` dict built by `analizar_patron_sesion_previa`.
(The float formatting embedded in the source's `descripcion` f-string is
display-only and not reproduced.) -/
structure PatronSesionPrevia where
  condicion : String
  probabilidad : ℚ
  n_casos : ℕ
  descripcion : String
deriving DecidableEq

/-- `TradingPredictor.analizar_patron_sesion_previa` from predictor.py: for
each of the two session pairs, emit the conditional pattern only when both
pivot columns exist and the conditioning subset has strictly more than 3
rows.  (The left-join of the day classifications adds a column this method
never reads and keeps exactly the pivot's rows, so it is not modelled; the
display rounding `round(prob, 1)` is not reproduced.) -/
def analizar_patron_sesion_previa (stats : List SessionStat) :
    Option PatronSesionPrevia × Option PatronSesionPrevia :=
  let asia_fuerte_europa :=
    if tieneSesion stats Sesion.ASIA && tieneSesion stats Sesion.EUROPA then
      if 3 < (fechasPrimeraFuerte stats Sesion.ASIA).length then
        some { condicion := "Si ASIA mueve >P75"
               probabilidad := probSegundaAlta stats Sesion.ASIA Sesion.EUROPA
               n_casos := (fechasPrimeraFuerte stats Sesion.ASIA).length
               descripcion := "Europa también sea activa" }
      else none
    else none
  let europa_fuerte_ny :=
    if tieneSesion stats Sesion.EUROPA && tieneSesion stats Sesion.NY then
      if 3 < (fechasPrimeraFuerte stats Sesion.EUROPA).length then
        some { condicion := "Si EUROPA mueve >P75"
               probabilidad := probSegundaAlta stats Sesion.EUROPA Sesion.NY
               n_casos := (fechasPrimeraFuerte stats Sesion.EUROPA).length
               descripcion := "NY también sea activa" }
      else none
    else none
  (asia_fuerte_europa, europa_fuerte_ny)

/-- One weekday entry of the `patrones['dia_semana']` dict. -/
structure DiaProbs where
  prob_fuerte : ℚ
  prob_intermedio : ℚ
  prob_lateral : ℚ
deriving DecidableEq

/-- One entry of the `patrones['rachas']` dict: exactly one of the two
probability keys is present in the source dicts, modelled with `Option`
fields (`in patron` membership tests become `isSome`). -/
structure PatronRacha where
  condicion : String
  probabilidad_fuerte : Option ℚ
  probabilidad_lateral : Option ℚ
  n_casos : ℕ
  descripcion : String
deriving DecidableEq

/-- The `self.patrones` dict fed into `generar_reglas_probabilisticas`. -/
structure Patrones where
  dia_semana : List (String × DiaProbs)
  sesion_previa : List (String × PatronSesionPrevia)
  rachas : List (String × PatronRacha)

/-- Rule families of `generar_reglas_probabilisticas`. -/
inductive TipoRegla where
  | DIA_SEMANA
  | SESION_PREVIA
  | RACHA
deriving DecidableEq

/-- The two confidence labels. -/
inductive Confianza where
  | ALTA
  | MEDIA
deriving DecidableEq

/-- One emitted probabilistic rule. -/
structure Regla where
  tipo : TipoRegla
  condicion : String
  prediccion : String
  probabilidad : ℚ
  confianza : Confianza
  tactica : String
deriving DecidableEq

/-- The day-of-week loop body of `generar_reglas_probabilisticas`: a FUERTE
rule when `prob_fuerte >= 45` (ALTA iff ≥ 50), else a LATERAL rule when
`prob_lateral >= 45` (ALTA iff ≥ 50), else nothing. -/
def reglasDiaSemana (item : String × DiaProbs) : List Regla :=
  if 45 ≤ item.2.prob_fuerte then
    [{ tipo := TipoRegla.DIA_SEMANA
       condicion := "Es " ++ item.1
       prediccion := "Día FUERTE probable"
       probabilidad := item.2.prob_fuerte
       confianza := if 50 ≤ item.2.prob_fuerte then Confianza.ALTA else Confianza.MEDIA
       tactica := "Dejar correr trades | Posiciones más grandes | Buscar breakouts" }]
  else if 45 ≤ item.2.prob_lateral then
    [{ tipo := TipoRegla.DIA_SEMANA
       condicion := "Es " ++ item.1
       prediccion := "Día LATERAL probable"
       probabilidad := item.2.prob_lateral
       confianza := if 50 ≤ item.2.prob_lateral then Confianza.ALTA else Confianza.MEDIA
       tactica := "Scalping | Range trading | Reducir exposición" }]
  else []

/-- The session-handoff loop body: a rule when `probabilidad >= 60`
(ALTA iff ≥ 70). -/
def reglasSesionPrevia (item : String × PatronSesionPrevia) : List Regla :=
  if 60 ≤ item.2.probabilidad then
    [{ tipo := TipoRegla.SESION_PREVIA
       condicion := item.2.condicion
       prediccion := item.2.descripcion
       probabilidad := item.2.probabilidad
       confianza := if 70 ≤ item.2.probabilidad then Confianza.ALTA else Confianza.MEDIA
       tactica := "Preparar estrategia para sesión activa" }]
  else []

/-- The streak loop body: a rule from `probabilidad_fuerte >= 50` when that
key is present (ALTA iff ≥ 65), else from `probabilidad_lateral >= 50`
(ALTA iff ≥ 65), else nothing. -/
def reglasRacha (item : String × PatronRacha) : List Regla :=
  let condF :=
    match item.2.probabilidad_fuerte with
    | some pf => decide (50 ≤ pf)
    | none => false
  let condL :=
    match item.2.probabilidad_lateral with
    | some pl => decide (50 ≤ pl)
    | none => false
  if condF then
    [{ tipo := TipoRegla.RACHA
       condicion := item.2.condicion
       prediccion := item.2.descripcion
       probabilidad := (item.2.probabilidad_fuerte).getD 0
       confianza := if 65 ≤ (item.2.probabilidad_fuerte).getD 0 then Confianza.ALTA
         else Confianza.MEDIA
       tactica := "Anticipar expansión de volatilidad" }]
  else if condL then
    [{ tipo := TipoRegla.RACHA
       condicion := item.2.condicion
       prediccion := item.2.descripcion
       probabilidad := (item.2.probabilidad_lateral).getD 0
       confianza := if 65 ≤ (item.2.probabilidad_lateral).getD 0 then Confianza.ALTA
         else Confianza.MEDIA
       tactica := "Esperar consolidación | Reducir tamaño" }]
  else []

/-- `TradingPredictor.generar_reglas_probabilisticas` from predictor.py,
applied to an already-populated `patrones` dict: the three filtering loops
in source order. -/
def generar_reglas_probabilisticas (p : Patrones) : List Regla :=
  (p.dia_semana.flatMap reglasDiaSemana) ++
  (p.sesion_previa.flatMap reglasSesionPrevia) ++
  (p.rachas.flatMap reglasRacha)

/-- A concrete `patrones` dict with a single 55%-FUERTE Monday entry. -/
def patronesEjemplo : Patrones :=
  { dia_semana := [("Lunes", { prob_fuerte := 55, prob_intermedio := 20, prob_lateral := 25 })]
    sesion_previa := []
    rachas := [] }

/-- A placeholder rule used as the `getD` default in witnesses. -/
def reglaDummy : Regla :=
  { tipo := TipoRegla.DIA_SEMANA, condicion := "", prediccion := "", probabilidad := 0,
    confianza := Confianza.MEDIA, tactica := "" }

/- ============ classifier.py: streak detection ===================== -/

/-- One row of the streak frame returned by `detectar_rachas`: the run's
classification, first date, last date and length. -/
structure Racha where
  tipo : Option Clasificacion
  fecha_inicio : ℕ
  fecha_fin : ℕ
  duracion : ℕ
deriving DecidableEq

/-- The run-grouping core of `detectar_rachas`: the source marks the rows
where the classification differs from the previous row (`shift(1)`, the
first row comparing unequal against NaN), takes the running sum of those
marks as a group id, and groups by it — which groups the chronologically
ordered rows into maximal runs of consecutive equal classification.  This
recursion carries the current run (class, first date, last date, length)
and is the functional rendering of that idiom; the groupby aggregates
(first, first, last, count) appear as the accumulated fields. -/
def rachasAux (c : Option Clasificacion) (fi ff : ℕ) (d : ℕ) :
    List DailyStat → List Racha
  | [] => [{ tipo := c, fecha_inicio := fi, fecha_fin := ff, duracion := d }]
  | x :: resto =>
    if x.clasificacion = c then rachasAux c fi x.fecha (d + 1) resto
    else { tipo := c, fecha_inicio := fi, fecha_fin := ff, duracion := d } ::
      rachasAux x.clasificacion x.fecha x.fecha 1 resto

/-- All maximal runs of the chronologically ordered classification frame. -/
def agruparRachas : List DailyStat → List Racha
  | [] => []
  | x :: resto => rachasAux x.clasificacion x.fecha x.fecha 1 resto

/-- `DayClassifier.detectar_rachas` from classifier.py: sort by date
(`sort_index`), group into maximal runs, keep the runs of 3 or more days. -/
def detectar_rachas (clasif : List DailyStat) : List Racha :=
  (agruparRachas (List.insertionSort (fun a b => a.fecha ≤ b.fecha) clasif)).filter
    fun r => decide (3 ≤ r.duracion)

/-- A classified day with the given date and classification. -/
def diaClasificado (f : ℕ) (c : Clasificacion) : DailyStat :=
  { diaRango f 0 with clasificacion := some c }

/-- The claim's example sequence FUERTE, FUERTE, FUERTE, LATERAL, LATERAL
on five consecutive dates. -/
def diasRachaEjemplo : List DailyStat :=
  [diaClasificado 0 Clasificacion.FUERTE, diaClasificado 1 Clasificacion.FUERTE,
   diaClasificado 2 Clasificacion.FUERTE, diaClasificado 3 Clasificacion.LATERAL,
   diaClasificado 4 Clasificacion.LATERAL]

/- ============ aliasing model for the defensive copies (C10) ============= -/

/-- A DataFrame value stored in a heap cell: the enriched per-minute frame,
a daily-stats frame, or a session-stats frame. -/
inductive CeldaDF where
  | velas (df : List Vela)
  | diarias (df : List DailyStat)
  | sesiones (df : List SessionStat)
deriving DecidableEq

/-- A heap of DataFrame objects, modelling Python object identity: a
reference is an index, `df.copy()` allocates a fresh cell, and in-place
column assignment writes through a reference. -/
structure Heap where
  celdas : List CeldaDF
deriving DecidableEq

/-- Dereference (out-of-range reads return an empty frame). -/
def Heap.leer (h : Heap) (r : ℕ) : CeldaDF :=
  h.celdas.getD r (CeldaDF.velas [])

/-- In-place update of the object behind a reference. -/
def Heap.escribir (h : Heap) (r : ℕ) (v : CeldaDF) : Heap :=
  ⟨h.celdas.set r v⟩

/-- Allocate a new object, returning its reference. -/
def Heap.alojar (h : Heap) (v : CeldaDF) : Heap × ℕ :=
  (⟨h.celdas ++ [v]⟩, h.celdas.length)

/-- Read a cell expected to hold the enriched per-minute frame. -/
def leerVelas (h : Heap) (r : ℕ) : List Vela :=
  match h.leer r with
  | CeldaDF.velas df => df
  | _ => []

/-- Read a cell expected to hold a daily-stats frame. -/
def leerDiarias (h : Heap) (r : ℕ) : List DailyStat :=
  match h.leer r with
  | CeldaDF.diarias df => df
  | _ => []

/-- Read a cell expected to hold a session-stats frame. -/
def leerSesiones (h : Heap) (r : ℕ) : List SessionStat :=
  match h.leer r with
  | CeldaDF.sesiones df => df
  | _ => []

/-- The mutable attributes of a `DayClassifier`: the reference to its own
copy of the input frame, the memoized `stats_diarias` / `clasificaciones`
references and the `percentiles` dict. -/
structure EstadoClasificador where
  dfRef : ℕ
  statsRef : Option ℕ
  percentiles : Option Percentiles
  clasifRef : Option ℕ
deriving DecidableEq

/-- The mutable attributes of a `SessionAnalytics`. -/
structure EstadoAnalytics where
  dfRef : ℕ
  statsSesRef : Option ℕ
  correlaciones : Option (List (String × ℚ))
deriving DecidableEq

/-- `DayClassifier.__init__`: `self.df = df.copy()` allocates a fresh cell
holding the caller's frame value; the derived attributes start as `None`. -/
def initClasificador (h : Heap) (caller : ℕ) : Heap × EstadoClasificador :=
  let par := h.alojar (CeldaDF.velas (leerVelas h caller))
  (par.1, { dfRef := par.2, statsRef := none, percentiles := none, clasifRef := none })

/-- `SessionAnalytics.__init__`: likewise `self.df = df.copy()`. -/
def initAnalytics (h : Heap) (caller : ℕ) : Heap × EstadoAnalytics :=
  let par := h.alojar (CeldaDF.velas (leerVelas h caller))
  (par.1, { dfRef := par.2, statsSesRef := none, correlaciones := none })

/-- `calcular_estadisticas_diarias` as a heap operation: reads the
classifier's own frame, builds a fresh stats frame, and rebinds
`self.stats_diarias` to it. -/
def opStatsDiarias (sqrt : ℚ → ℚ) (h : Heap) (st : EstadoClasificador) :
    Heap × EstadoClasificador :=
  let stats := calcular_estadisticas_diarias sqrt (leerVelas h st.dfRef)
  let par := h.alojar (CeldaDF.diarias stats)
  (par.1, { st with statsRef := some par.2 })

/-- `calcular_percentiles` as a heap operation: computes the prior stage if
missing, then stores the percentile dict on the instance. -/
def opPercentiles (sqrt : ℚ → ℚ) (h : Heap) (st : EstadoClasificador) :
    Heap × EstadoClasificador :=
  let paso := if st.statsRef.isNone then opStatsDiarias sqrt h st else (h, st)
  let valores := (leerDiarias paso.1 (paso.2.statsRef.getD 0)).map (·.rango_diario)
  (paso.1, { paso.2 with percentiles := some (calcular_percentiles sqrt valores) })

/-- `clasificar_dias` as a heap operation: computes the missing prior
stages, assigns the `clasificacion` / `es_outlier` columns in place on the
`stats_diarias` object, and binds `self.clasificaciones` to a fresh copy. -/
def opClasificar (sqrt : ℚ → ℚ) (h : Heap) (st : EstadoClasificador) :
    Heap × EstadoClasificador :=
  let paso1 := if st.statsRef.isNone then opStatsDiarias sqrt h st else (h, st)
  let paso2 := if paso1.2.percentiles.isNone then opPercentiles sqrt paso1.1 paso1.2 else paso1
  let stats := leerDiarias paso2.1 (paso2.2.statsRef.getD 0)
  let nuevo := clasificar_dias sqrt (·.rango_diario) stats paso2.2.percentiles
  let h3 := paso2.1.escribir (paso2.2.statsRef.getD 0) (CeldaDF.diarias nuevo)
  let par := h3.alojar (CeldaDF.diarias nuevo)
  (par.1, { paso2.2 with clasifRef := some par.2 })

/-- `detectar_rachas` as a heap operation: classifies first if needed, then
computes the streak frame from a local sorted copy (no heap write). -/
def opRachas (sqrt : ℚ → ℚ) (h : Heap) (st : EstadoClasificador) :
    Heap × EstadoClasificador × List Racha :=
  let paso := if st.clasifRef.isNone then opClasificar sqrt h st else (h, st)
  (paso.1, paso.2, detectar_rachas (leerDiarias paso.1 (paso.2.clasifRef.getD 0)))

/-- `calcular_estadisticas_por_sesion` as a heap operation. -/
def opStatsSesiones (h : Heap) (st : EstadoAnalytics) : Heap × EstadoAnalytics :=
  let stats := calcular_estadisticas_por_sesion (leerVelas h st.dfRef)
  let par := h.alojar (CeldaDF.sesiones stats)
  (par.1, { st with statsSesRef := some par.2 })

/-- Pearson correlation over date-aligned pairs; the square root inside the
normalisation is the abstracted `sqrt` (floating point in the source). -/
def pearson (sqrt : ℚ → ℚ) (pares : List (ℚ × ℚ)) : ℚ :=
  let n : ℚ := (pares.length : ℚ)
  let mx := (pares.map (·.1)).sum / n
  let my := (pares.map (·.2)).sum / n
  let cov := (pares.map fun par => (par.1 - mx) * (par.2 - my)).sum
  cov / (sqrt ((pares.map fun par => (par.1 - mx) ^ 2).sum) *
    sqrt ((pares.map fun par => (par.2 - my) ^ 2).sum))

/-- The pairwise-complete date-aligned pairs of two pivot columns
(`Series.corr` drops the dates where either side is NaN). -/
def paresSesion (stats : List SessionStat) (s1 s2 : Sesion) : List (ℚ × ℚ) :=
  (fechasPivot stats).filterMap fun f =>
    match pivotValor stats f s1, pivotValor stats f s2 with
    | some a, some b => some (a, b)
    | _, _ => none

/-- The sessions present in the pivot, in pandas column order. -/
def sesionesPresentes (stats : List SessionStat) : List Sesion :=
  [Sesion.ASIA, Sesion.EUROPA, Sesion.NY].filter (tieneSesion stats)

/-- The display name of a session. -/
def nombreSesion : Sesion → String
  | Sesion.ASIA => "ASIA"
  | Sesion.EUROPA => "EUROPA"
  | Sesion.NY => "NY"

/-- The date-aligned pairs of one session column against the day's net
range `high - low` computed from the per-minute frame. -/
def paresSesionDia (df : List Vela) (stats : List SessionStat) (s : Sesion) :
    List (ℚ × ℚ) :=
  (fechasPivot stats).filterMap fun f =>
    match pivotValor stats f s with
    | some a =>
      let grupo := df.filter fun v => decide (v.fecha = f)
      match grupo with
      | [] => none
      | _ =>
        some (a, (maximoQ (grupo.map (·.high))).getD 0 - (minimoQ (grupo.map (·.low))).getD 0)
    | none => none

/-- `SessionAnalytics.detectar_correlacion_sesiones` from analytics.py: the
three pairwise session correlations (each guarded by the presence of both
columns) followed by each present session against the daily range.  (The
3-decimal display rounding is not reproduced.) -/
def detectar_correlacion_sesiones (sqrt : ℚ → ℚ) (df : List Vela)
    (stats : List SessionStat) : List (String × ℚ) :=
  (if tieneSesion stats Sesion.ASIA && tieneSesion stats Sesion.EUROPA then
    [("ASIA→EUROPA", pearson sqrt (paresSesion stats Sesion.ASIA Sesion.EUROPA))]
   else []) ++
  (if tieneSesion stats Sesion.EUROPA && tieneSesion stats Sesion.NY then
    [("EUROPA→NY", pearson sqrt (paresSesion stats Sesion.EUROPA Sesion.NY))]
   else []) ++
  (if tieneSesion stats Sesion.ASIA && tieneSesion stats Sesion.NY then
    [("ASIA→NY", pearson sqrt (paresSesion stats Sesion.ASIA Sesion.NY))]
   else []) ++
  (sesionesPresentes stats).map fun s =>
    (nombreSesion s ++ "→RANGO_DIA", pearson sqrt (paresSesionDia df stats s))

/-- `detectar_correlacion_sesiones` as a heap operation: computes the prior
stage if missing, reads its own frame and the session stats, stores the
correlation dict on the instance (no heap write). -/
def opCorrelaciones (sqrt : ℚ → ℚ) (h : Heap) (st : EstadoAnalytics) :
    Heap × EstadoAnalytics :=
  let paso := if st.statsSesRef.isNone then opStatsSesiones h st else (h, st)
  (paso.1, { paso.2 with correlaciones := some (detectar_correlacion_sesiones sqrt
    (leerVelas paso.1 paso.2.dfRef) (leerSesiones paso.1 (paso.2.statsSesRef.getD 0))) })

/-- The operations named by the frame-effect claim. -/
inductive OpPipeline where
  | estadisticas_diarias
  | percentiles
  | clasificar
  | rachas
  | estadisticas_sesion
  | correlacion
deriving DecidableEq

/-- The joint state of one `DayClassifier` and one `SessionAnalytics`
built over the same caller frame. -/
structure EstadoPipeline where
  clf : EstadoClasificador
  ana : EstadoAnalytics
deriving DecidableEq

/-- Dispatch one operation. -/
def pasoPipeline (sqrt : ℚ → ℚ) (h : Heap) (st : EstadoPipeline) :
    OpPipeline → Heap × EstadoPipeline
  | OpPipeline.estadisticas_diarias =>
    let par := opStatsDiarias sqrt h st.clf
    (par.1, { st with clf := par.2 })
  | OpPipeline.percentiles =>
    let par := opPercentiles sqrt h st.clf
    (par.1, { st with clf := par.2 })
  | OpPipeline.clasificar =>
    let par := opClasificar sqrt h st.clf
    (par.1, { st with clf := par.2 })
  | OpPipeline.rachas =>
    let par := opRachas sqrt h st.clf
    (par.1, { st with clf := par.2.1 })
  | OpPipeline.estadisticas_sesion =>
    let par := opStatsSesiones h st.ana
    (par.1, { st with ana := par.2 })
  | OpPipeline.correlacion =>
    let par := opCorrelaciones sqrt h st.ana
    (par.1, { st with ana := par.2 })

/-- Run a sequence of operations. -/
def ejecutarPipeline (sqrt : ℚ → ℚ) : Heap → EstadoPipeline → List OpPipeline →
    Heap × EstadoPipeline
  | h, st, [] => (h, st)
  | h, st, op :: resto =>
    let par := pasoPipeline sqrt h st op
    ejecutarPipeline sqrt par.1 par.2 resto

/-- Construct both components over the caller's frame (each takes its own
defensive copy). -/
def initPipeline (h : Heap) (caller : ℕ) : Heap × EstadoPipeline :=
  let parClf := initClasificador h caller
  let parAna := initAnalytics parClf.1 caller
  (parAna.1, { clf := parClf.2, ana := parAna.2 })

/-- Every reference owned by a classifier state is ≥ `base`: it points at
a cell allocated after construction began. -/
def ClfDesde (base : ℕ) (c : EstadoClasificador) : Prop :=
  base ≤ c.dfRef ∧ (∀ r ∈ c.statsRef, base ≤ r) ∧ (∀ r ∈ c.clasifRef, base ≤ r)

/-- Every reference owned by an analytics state is ≥ `base`. -/
def AnaDesde (base : ℕ) (a : EstadoAnalytics) : Prop :=
  base ≤ a.dfRef ∧ (∀ r ∈ a.statsSesRef, base ≤ r)

/-- Every reference owned by the two component states is at least `base`:
they all point at cells allocated after construction began. -/
def RefsDesde (base : ℕ) (st : EstadoPipeline) : Prop :=
  ClfDesde base st.clf ∧ AnaDesde base st.ana

/-- A sample enriched row for the C10 witness heap. -/
def velaEjemplo : Vela :=
  { datetime := ⟨0, 600⟩, open_ := 5000, high := 5010, low := 4990, close := 5005,
    volume := 100, fecha := 0, hora := 600, dia_semana := nombreDia 0,
    rango := 20, sesion := identificar_sesion 600 }

/-- A one-cell heap holding a one-row enriched frame, for the C10 witness. -/
def heapEjemplo : Heap := ⟨[CeldaDF.velas [velaEjemplo]]⟩

/- ===================== theorems: C1 and C8 ===================== -/

/-- C1: session assignment is total, exhaustive and deterministic: for every
minute-of-day from 00:00 to 23:59, `_identificar_sesion` returns exactly the
session the claim's case analysis prescribes (ASIA for t ≥ 19:00 or
t < 04:00, otherwise EUROPA on [03:00, 12:00), otherwise NY on
[09:30, 17:00), and NY for the whole remaining 17:00-19:00 gap). -/
theorem identificar_sesion_correcta (t : ℕ) (_h : t < 1440) :
    identificar_sesion t = sesion_segun_claim t := rfl

/-- Witness for C1: the theorem applied at 17:30 (t = 1050), inside the
post-market gap. -/
theorem identificar_sesion_correcta_witness :
    1050 < 1440 ∧ identificar_sesion 1050 = sesion_segun_claim 1050 :=
  ⟨by decide, identificar_sesion_correcta 1050 (by decide)⟩

/-- C8 counterexample: at 01:00 on 2026-03-08 (the second Sunday of March
2026) the code reports DST active, while the claim's 02:00-boundary reading
says it is not yet active: the claimed equivalence fails at this input. -/
theorem es_dst_usa_contraejemplo :
    es_dst_usa ⟨2026, 3, 8, 1, 0⟩ = true ∧ dst_claim_instante ⟨2026, 3, 8, 1, 0⟩ = false := by
  constructor
  · decide
  · decide

/-- C8 (amended): `_es_dst_usa` implements the DST window at day
granularity: it returns true exactly when the date is on or after the
second Sunday of March of its year and strictly before the first Sunday
of November of its year, both Sundays recomputed from the calendar rule
for that year; the 02:00 time-of-day part of the documented rule is
ignored (the function never reads the hour). -/
theorem es_dst_usa_granularidad_dia (f : FechaHora) :
    es_dst_usa f = dst_claim_dia f := by
  rcases f with ⟨anio, mes, dia, hora, minuto⟩
  unfold es_dst_usa dst_claim_dia
  simp only []
  by_cases h1 : mes < 3 ∨ 11 < mes
  · simp only [h1, if_true]
    rcases h1 with h1 | h1 <;> simp <;> omega
  · simp only [h1, if_false]
    by_cases h2 : 3 < mes ∧ mes < 11
    · simp only [h2, if_true]
      simp
      try omega
    · simp only [h2, if_false]
      by_cases h3 : mes = 3
      · subst h3
        simp
        try omega
      · simp only [h3, if_false]
        by_cases h4 : mes = 11
        · subst h4
          simp
          try omega
        · omega

/-- C4: any dataset containing a candle with high < low (in particular the
claim's high = 100, low = 105 candle) makes `validar_datos` return False with
an accumulated error message mentioning "High < Low", and `procesar` then
returns None with a stage trace that never reaches `enriquecer_datos` (so no
enrichment, aggregation, classification or analytics runs on the data). -/
theorem validar_rechaza_high_low (df : List Candle) (tzConv : Dt → Dt) (g m : Bool)
    (h : ∃ r ∈ df, r.high < r.low) :
    (validar_datos df).ok = false ∧
    (∃ e ∈ (validar_datos df).errores, ∃ k : ℕ, e = toString k ++ " velas con High < Low") ∧
    (procesar tzConv (some df) g m).1 = none ∧
    Etapa.enriquecer ∉ (procesar tzConv (some df) g m).2 := by
  have hcount : 0 < df.countP fun r => decide (r.high < r.low) := by
    rw [List.countP_pos_iff]
    obtain ⟨r, hr, hlt⟩ := h
    exact ⟨r, hr, decide_eq_true hlt⟩
  have hok : (validar_datos df).ok = false := by
    simp only [validar_datos, check_high_low, Bool.true_and]
    simp [hcount]
  refine ⟨hok, ?_, ?_, ?_⟩
  · refine ⟨toString (df.countP fun r => decide (r.high < r.low)) ++ " velas con High < Low",
      ?_, df.countP fun r => decide (r.high < r.low), rfl⟩
    simp only [validar_datos, check_high_low, Bool.true_and]
    have hd : decide (0 < df.countP fun r => decide (r.high < r.low)) = true :=
      decide_eq_true hcount
    simp [hd, List.mem_append]
    obtain ⟨r, hr, hlt⟩ := h
    exact Or.inr (Or.inr (Or.inl ⟨r, hr, hlt⟩))
  · simp [procesar, hok]
  · simp [procesar, hok]

/-- Witness for C4: the theorem applied to the one-row dataset holding the
claim's high = 100, low = 105 candle. -/
theorem validar_rechaza_high_low_witness :
    (∃ r ∈ dfInvertido, r.high < r.low) ∧
    ((validar_datos dfInvertido).ok = false ∧
     (∃ e ∈ (validar_datos dfInvertido).errores,
        ∃ k : ℕ, e = toString k ++ " velas con High < Low") ∧
     (procesar id (some dfInvertido) true true).1 = none ∧
     Etapa.enriquecer ∉ (procesar id (some dfInvertido) true true).2) := by
  have h : ∃ r ∈ dfInvertido, r.high < r.low := by
    refine ⟨{ datetime := ⟨0, 600⟩, open_ := 104, high := 100, low := 105,
              close := 103, volume := 10 }, ?_, ?_⟩
    · simp [dfInvertido]
    · norm_num
  exact ⟨h, validar_rechaza_high_low dfInvertido id true true h⟩

/-- `Rat.floor` agrees with the `Int.floor` of the order structure. -/
theorem rat_floor_coe (q : ℚ) : q.floor = ⌊q⌋ := by
  rw [Rat.floor_def', Rat.floor_def]

/-- In a list sorted ascending, entries at smaller indices are ≤ entries at
larger (in-range) indices. -/
theorem getD_mono_of_sorted (s : List ℚ) (hsort : List.Sorted (· ≤ ·) s) (d : ℚ)
    {i j : ℕ} (hij : i ≤ j) (hj : j < s.length) : s.getD i d ≤ s.getD j d := by
  have hi : i < s.length := lt_of_le_of_lt hij hj
  rw [List.getD_eq_getElem s d hi, List.getD_eq_getElem s d hj]
  rcases Nat.lt_or_ge i j with h | h
  · exact List.pairwise_iff_getElem.mp hsort i j hi hj h
  · have hji : i = j := le_antisymm hij h
    subst hji
    exact le_refl _

/-- Monotonicity of linear-interpolation percentile extraction on a sorted
array: a higher percentile rank never gives a smaller value. -/
theorem interpolarOrdenada_mono (s : List ℚ) (hsort : List.Sorted (· ≤ ·) s)
    {q1 q2 : ℚ} (h0 : 0 ≤ q1) (h12 : q1 ≤ q2) (h100 : q2 ≤ 100) :
    interpolarOrdenada s q1 ≤ interpolarOrdenada s q2 := by
  cases s with
  | nil => simp [interpolarOrdenada]
  | cons x xs =>
    simp only [interpolarOrdenada]
    set L := xs.length with hL
    set h1 : ℚ := (L : ℚ) * q1 / 100 with hh1
    set h2 : ℚ := (L : ℚ) * q2 / 100 with hh2
    have hq1 : 0 ≤ h1 := by positivity
    have h12' : h1 ≤ h2 := by
      apply div_le_div_of_nonneg_right ?_ (by norm_num)
      exact mul_le_mul_of_nonneg_left h12 (Nat.cast_nonneg L)
    have hub : h2 ≤ (L : ℚ) := by
      rw [hh2, div_le_iff₀ (by norm_num : (0:ℚ) < 100)]
      exact mul_le_mul_of_nonneg_left h100 (Nat.cast_nonneg L)
    have hf1n : (0 : ℤ) ≤ ⌊h1⌋ := Int.floor_nonneg.mpr hq1
    have hf12 : ⌊h1⌋ ≤ ⌊h2⌋ := Int.floor_le_floor h12'
    have hf2u : ⌊h2⌋ ≤ (L : ℤ) := by
      have := Int.floor_le_floor hub
      rwa [Int.floor_natCast] at this
    rw [rat_floor_coe h1, rat_floor_coe h2]
    set i1 := ⌊h1⌋.toNat with hi1
    set i2 := ⌊h2⌋.toNat with hi2
    have hi12 : i1 ≤ i2 := by omega
    have hi2L : i2 ≤ L := by omega
    have hi1L : i1 ≤ L := le_trans hi12 hi2L
    have hlen : (x :: xs).length = L + 1 := by simp [hL]
    have hminL : ∀ i : ℕ, Nat.min (i + 1) L ≤ L := fun i => Nat.min_le_right _ _
    have hg1lo : 0 ≤ h1 - (⌊h1⌋ : ℚ) := sub_nonneg.mpr (Int.floor_le h1)
    have hg2lo : 0 ≤ h2 - (⌊h2⌋ : ℚ) := sub_nonneg.mpr (Int.floor_le h2)
    have hg1hi : h1 - (⌊h1⌋ : ℚ) ≤ 1 := by
      have := le_of_lt (Int.lt_floor_add_one h1)
      push_cast at this ⊢
      linarith
    have hfc1 : ((⌊h1⌋.toNat : ℤ) : ℚ) = ((⌊h1⌋ : ℤ) : ℚ) := by
      congr 1
      omega
    have hfc2 : ((⌊h2⌋.toNat : ℤ) : ℚ) = ((⌊h2⌋ : ℤ) : ℚ) := by
      congr 1
      omega
    have hlo1hi1 : (x :: xs).getD i1 x ≤ (x :: xs).getD (Nat.min (i1 + 1) L) x := by
      apply getD_mono_of_sorted _ hsort x (le_min (Nat.le_succ i1) hi1L)
      rw [hlen]
      exact lt_of_le_of_lt (hminL i1) (Nat.lt_succ_self L)
    have hlo2hi2 : (x :: xs).getD i2 x ≤ (x :: xs).getD (Nat.min (i2 + 1) L) x := by
      apply getD_mono_of_sorted _ hsort x (le_min (Nat.le_succ i2) hi2L)
      rw [hlen]
      exact lt_of_le_of_lt (hminL i2) (Nat.lt_succ_self L)
    rcases Nat.lt_or_ge i1 i2 with hlt | hge
    · -- the two ranks fall in different cells: chain through the shared entries
      have step1 : (x :: xs).getD i1 x + (h1 - (⌊h1⌋ : ℚ)) *
          ((x :: xs).getD (Nat.min (i1 + 1) L) x - (x :: xs).getD i1 x) ≤
          (x :: xs).getD (Nat.min (i1 + 1) L) x := by
        have hd : 0 ≤ (x :: xs).getD (Nat.min (i1 + 1) L) x - (x :: xs).getD i1 x :=
          sub_nonneg.mpr hlo1hi1
        nlinarith [mul_le_of_le_one_left hd hg1hi]
      have step2 : (x :: xs).getD (Nat.min (i1 + 1) L) x ≤ (x :: xs).getD i2 x := by
        apply getD_mono_of_sorted _ hsort x (le_trans (Nat.min_le_left _ _) hlt)
        rw [hlen]
        exact Nat.lt_succ_of_le hi2L
      have step3 : (x :: xs).getD i2 x ≤ (x :: xs).getD i2 x + (h2 - (⌊h2⌋ : ℚ)) *
          ((x :: xs).getD (Nat.min (i2 + 1) L) x - (x :: xs).getD i2 x) := by
        have hd : 0 ≤ (x :: xs).getD (Nat.min (i2 + 1) L) x - (x :: xs).getD i2 x :=
          sub_nonneg.mpr hlo2hi2
        nlinarith
      calc _ ≤ (x :: xs).getD (Nat.min (i1 + 1) L) x := step1
        _ ≤ (x :: xs).getD i2 x := step2
        _ ≤ _ := step3
    · -- same cell: only the fractional parts differ
      have heqi : i1 = i2 := le_antisymm hi12 hge
      have hfeq : ⌊h1⌋ = ⌊h2⌋ := by omega
      rw [heqi, hfeq]
      have hd : 0 ≤ (x :: xs).getD (Nat.min (i2 + 1) L) x - (x :: xs).getD i2 x :=
        sub_nonneg.mpr hlo2hi2
      have hg12 : h1 - (⌊h2⌋ : ℚ) ≤ h2 - (⌊h2⌋ : ℚ) := by linarith
      nlinarith

/-- The p33 percentile never exceeds the p67 percentile. -/
theorem percentileQ_33_le_67 (l : List ℚ) :
    percentileQ l (3333 / 100) ≤ percentileQ l (6667 / 100) := by
  apply interpolarOrdenada_mono _ (List.sorted_insertionSort _ l) <;> norm_num

/-- C2 counterexample: with mean = 100 and std = 20 preset, `clasificar_dias`
DOES flag a day whose metric equals 145 as an outlier (145 > 140 = mean +
2*std and the comparison is strict `>`), so the claim's "does NOT flag ...
metric equals 145" clause is false on the code. -/
theorem outlier_145_contraejemplo :
    (clasificar_dias (fun q => q) (·.rango_diario) [diaRango 0 145] (some psHipotetico)).map
      (·.es_outlier) = [some true] := by
  simp [clasificar_dias, es_outlier_valor, psHipotetico, diaRango]
  norm_num

/-- C2 (amended): with outlier statistics mean = 100 and std = 20 preset,
`clasificar_dias` flags a day as an outlier exactly when its metric is
strictly greater than mean + 2*std = 140; in particular a metric of 141
(and also 145) IS flagged and a metric of exactly 140 is not. -/
theorem outlier_umbral_estricto (sqrt : ℚ → ℚ) (ps : Percentiles) (stats : List DailyStat)
    (d : DailyStat) (hm : ps.mean = some 100) (hs : ps.std = some 20)
    (hd : d ∈ clasificar_dias sqrt (·.rango_diario) stats (some ps)) :
    d.es_outlier = some true ↔ 140 < d.rango_diario := by
  simp only [clasificar_dias, List.mem_map] at hd
  obtain ⟨d0, hd0, rfl⟩ := hd
  simp [es_outlier_valor, hm, hs]
  norm_num

/-- Witness for C2: the amended theorem applied to a concrete metric-141
day under the hypothetical mean-100/std-20 snapshot. -/
theorem outlier_umbral_estricto_witness :
    psHipotetico.mean = some 100 ∧ psHipotetico.std = some 20 ∧
    clasificadosC2.getD 0 (diaRango 0 0) ∈ clasificadosC2 ∧
    ((clasificadosC2.getD 0 (diaRango 0 0)).es_outlier = some true ↔
      140 < (clasificadosC2.getD 0 (diaRango 0 0)).rango_diario) := by
  have hlen : 0 < clasificadosC2.length := by
    simp [clasificadosC2, clasificar_dias]
  have hmem : clasificadosC2.getD 0 (diaRango 0 0) ∈ clasificadosC2 := by
    rw [List.getD_eq_getElem clasificadosC2 (diaRango 0 0) hlen]
    exact List.getElem_mem hlen
  exact ⟨rfl, rfl, hmem,
    outlier_umbral_estricto (fun q => q) psHipotetico [diaRango 0 141] _ rfl rfl hmem⟩

/-- C3: classifying with percentiles computed from the dataset itself,
every classified day is FUERTE iff its metric is ≥ p67, INTERMEDIO iff
p33 ≤ metric < p67, and LATERAL iff metric < p33 (ties at a threshold go
to the stronger bucket because the source compares with `>=`). -/
theorem clasificacion_por_percentiles (sqrt : ℚ → ℚ) (stats : List DailyStat) (d : DailyStat)
    (hd : d ∈ clasificar_dias sqrt (·.rango_diario) stats none) :
    (d.clasificacion = some Clasificacion.FUERTE ↔
      (calcular_percentiles sqrt (stats.map (·.rango_diario))).p67 ≤ d.rango_diario) ∧
    (d.clasificacion = some Clasificacion.INTERMEDIO ↔
      (calcular_percentiles sqrt (stats.map (·.rango_diario))).p33 ≤ d.rango_diario ∧
        d.rango_diario < (calcular_percentiles sqrt (stats.map (·.rango_diario))).p67) ∧
    (d.clasificacion = some Clasificacion.LATERAL ↔
      d.rango_diario < (calcular_percentiles sqrt (stats.map (·.rango_diario))).p33) := by
  simp only [clasificar_dias, List.mem_map] at hd
  obtain ⟨d0, hd0, rfl⟩ := hd
  set ps := calcular_percentiles sqrt (stats.map (·.rango_diario)) with hps
  have hp33 : ps.p33 = percentileQ (stats.map (·.rango_diario)) (3333 / 100) := rfl
  have hp67 : ps.p67 = percentileQ (stats.map (·.rango_diario)) (6667 / 100) := rfl
  have hp : ps.p33 ≤ ps.p67 := by
    rw [hp33, hp67]
    exact percentileQ_33_le_67 _
  rcases le_or_lt ps.p67 d0.rango_diario with h67 | h67
  · have h33 : ps.p33 ≤ d0.rango_diario := le_trans hp h67
    simp [clasificar_valor, h67, not_lt.mpr h67, h33]
  · rcases le_or_lt ps.p33 d0.rango_diario with h33 | h33
    · simp [clasificar_valor, not_le.mpr h67, h33, h67, not_lt.mpr h33]
    · simp [clasificar_valor, not_le.mpr h67, not_le.mpr h33, h33, not_le.mpr (lt_of_lt_of_le h33 hp)]

/-- Witness for C3: the theorem applied to a day of the concrete
three-day dataset `statsC3`. -/
theorem clasificacion_por_percentiles_witness :
    clasificadosC3.getD 2 (diaRango 0 0) ∈ clasificadosC3 ∧
    (((clasificadosC3.getD 2 (diaRango 0 0)).clasificacion = some Clasificacion.FUERTE ↔
      (calcular_percentiles (fun q => q) (statsC3.map (·.rango_diario))).p67 ≤
        (clasificadosC3.getD 2 (diaRango 0 0)).rango_diario) ∧
    ((clasificadosC3.getD 2 (diaRango 0 0)).clasificacion = some Clasificacion.INTERMEDIO ↔
      (calcular_percentiles (fun q => q) (statsC3.map (·.rango_diario))).p33 ≤
        (clasificadosC3.getD 2 (diaRango 0 0)).rango_diario ∧
        (clasificadosC3.getD 2 (diaRango 0 0)).rango_diario <
          (calcular_percentiles (fun q => q) (statsC3.map (·.rango_diario))).p67) ∧
    ((clasificadosC3.getD 2 (diaRango 0 0)).clasificacion = some Clasificacion.LATERAL ↔
      (clasificadosC3.getD 2 (diaRango 0 0)).rango_diario <
        (calcular_percentiles (fun q => q) (statsC3.map (·.rango_diario))).p33)) := by
  have hlen : 2 < clasificadosC3.length := by
    simp [clasificadosC3, clasificar_dias, statsC3]
  have hmem : clasificadosC3.getD 2 (diaRango 0 0) ∈ clasificadosC3 := by
    rw [List.getD_eq_getElem clasificadosC3 (diaRango 0 0) hlen]
    exact List.getElem_mem hlen
  exact ⟨hmem, clasificacion_por_percentiles (fun q => q) statsC3 _ hmem⟩

/-- The column minimum is ≤ every entry of the column. -/
theorem minimoQ_spec (l : List ℚ) (x : ℚ) (hx : x ∈ l) :
    ∃ m, minimoQ l = some m ∧ m ≤ x := by
  induction l with
  | nil => cases hx
  | cons a as ih =>
    rcases List.mem_cons.mp hx with rfl | hx'
    · cases hm : minimoQ as with
      | none => exact ⟨x, by simp [minimoQ, hm], le_refl x⟩
      | some m => exact ⟨min x m, by simp [minimoQ, hm], min_le_left x m⟩
    · obtain ⟨m, hm, hmx⟩ := ih hx'
      exact ⟨min a m, by simp [minimoQ, hm], le_trans (min_le_right a m) hmx⟩

/-- If the hard checks all pass, every raw open price is at least the
configured minimum: otherwise the open-column minimum check would have
cleared the flag. -/
theorem validar_ok_open_min (df : List Candle) (hok : (validar_datos df).ok = true) :
    ∀ r ∈ df, precio_min ≤ r.open_ := by
  intro r hr
  by_contra hlt
  push_neg at hlt
  obtain ⟨m, hm, hmx⟩ := minimoQ_spec (df.map (·.open_)) r.open_
    (List.mem_map_of_mem _ hr)
  have hbl : minBajoLimite (df.map (·.open_)) = true := by
    simp only [minBajoLimite, hm]
    exact decide_eq_true (lt_of_le_of_lt hmx hlt)
  have hpre : ((columnasPrecio df).any fun par =>
      minBajoLimite par.2 || maxSobreLimite par.2) = true := by
    apply List.any_eq_true.mpr
    exact ⟨("open", df.map (·.open_)), by simp [columnasPrecio], by simp [hbl]⟩
  simp only [validar_datos, hpre, Bool.true_or, Bool.not_true] at hok
  cases hok

/-- Every row of `enriquecer_datos` carries the open price of a raw row. -/
theorem enriquecer_open_mem (tzConv : Dt → Dt) (l : List Candle) (w : Vela)
    (hw : w ∈ enriquecer_datos tzConv l) : ∃ c ∈ l, w.open_ = c.open_ := by
  simp only [enriquecer_datos, List.mem_map] at hw
  obtain ⟨c, hc, rfl⟩ := hw
  exact ⟨c, hc, rfl⟩

/-- C9: on any dataset accepted by `validar_datos`, every open price is at
least the configured minimum 1000 (hence strictly positive), and therefore
the `open` aggregate of every daily and every per-session statistics row is
nonzero: the `cambio_pct = cambio / open * 100` computations never divide
by zero. -/
theorem apertura_sin_division_por_cero (sqrt : ℚ → ℚ) (tzConv : Dt → Dt) (df : List Candle)
    (hok : (validar_datos df).ok = true) :
    (∀ r ∈ df, precio_min ≤ r.open_ ∧ 0 < r.open_) ∧
    (∀ d ∈ calcular_estadisticas_diarias sqrt (enriquecer_datos tzConv (validar_datos df).df),
        precio_min ≤ d.open_ ∧ d.open_ ≠ 0) ∧
    (∀ s ∈ calcular_estadisticas_por_sesion (enriquecer_datos tzConv (validar_datos df).df),
        precio_min ≤ s.open_ ∧ s.open_ ≠ 0) := by
  have hmin := validar_ok_open_min df hok
  have hperm : (validar_datos df).df.Perm df := by
    simp only [validar_datos]
    exact List.perm_insertionSort _ df
  have hmin2 : ∀ w ∈ enriquecer_datos tzConv (validar_datos df).df, precio_min ≤ w.open_ := by
    intro w hw
    obtain ⟨c, hc, hco⟩ := enriquecer_open_mem tzConv _ w hw
    rw [hco]
    exact hmin c (hperm.mem_iff.mp hc)
  refine ⟨fun r hr => ⟨hmin r hr, lt_of_lt_of_le (by norm_num [precio_min]) (hmin r hr)⟩, ?_, ?_⟩
  · intro d hd
    simp only [calcular_estadisticas_diarias, List.mem_map] at hd
    obtain ⟨f, hf, rfl⟩ := hd
    have hne : ∃ v, v ∈ (enriquecer_datos tzConv (validar_datos df).df).filter
        fun v => decide (v.fecha = f) := by
      unfold fechasUnicas at hf
      have h1 := List.mem_dedup.mp hf
      have h2 : f ∈ (enriquecer_datos tzConv (validar_datos df).df).map (·.fecha) :=
        (List.perm_insertionSort _ _).mem_iff.mp h1
      obtain ⟨v, hv, hvf⟩ := List.mem_map.mp h2
      exact ⟨v, List.mem_filter.mpr ⟨hv, decide_eq_true hvf⟩⟩
    obtain ⟨v, hv⟩ := hne
    cases hg : (enriquecer_datos tzConv (validar_datos df).df).filter
        (fun v => decide (v.fecha = f)) with
    | nil => rw [hg] at hv; cases hv
    | cons v0 resto =>
      have hv0 : v0 ∈ (enriquecer_datos tzConv (validar_datos df).df).filter
          fun v => decide (v.fecha = f) := by
        rw [hg]; exact List.mem_cons_self v0 resto
      have h1000 : precio_min ≤ v0.open_ :=
        hmin2 v0 (List.mem_filter.mp hv0).1
      constructor
      · simpa [aggDia] using h1000
      · simp only [aggDia]
        intro h0
        rw [h0] at h1000
        norm_num [precio_min] at h1000
  · intro st hst
    simp only [calcular_estadisticas_por_sesion, List.mem_map] at hst
    obtain ⟨k, hk, rfl⟩ := hst
    have hne : ∃ v, v ∈ (enriquecer_datos tzConv (validar_datos df).df).filter
        fun v => decide (v.fecha = k.1 ∧ v.sesion = k.2) := by
      unfold clavesSesion at hk
      have h1 := List.mem_dedup.mp hk
      have h2 : k ∈ (enriquecer_datos tzConv (validar_datos df).df).map
          (fun v => (v.fecha, v.sesion)) :=
        (List.perm_insertionSort _ _).mem_iff.mp h1
      obtain ⟨v, hv, hvk⟩ := List.mem_map.mp h2
      refine ⟨v, List.mem_filter.mpr ⟨hv, decide_eq_true ?_⟩⟩
      rw [← hvk]
      exact ⟨rfl, rfl⟩
    obtain ⟨v, hv⟩ := hne
    cases hg : (enriquecer_datos tzConv (validar_datos df).df).filter
        (fun v => decide (v.fecha = k.1 ∧ v.sesion = k.2)) with
    | nil => rw [hg] at hv; cases hv
    | cons v0 resto =>
      have hv0 : v0 ∈ (enriquecer_datos tzConv (validar_datos df).df).filter
          fun v => decide (v.fecha = k.1 ∧ v.sesion = k.2) := by
        rw [hg]; exact List.mem_cons_self v0 resto
      have h1000 : precio_min ≤ v0.open_ :=
        hmin2 v0 (List.mem_filter.mp hv0).1
      constructor
      · simpa [aggSesion] using h1000
      · simp only [aggSesion]
        intro h0
        rw [h0] at h1000
        norm_num [precio_min] at h1000

/-- Witness for C9: the theorem applied to the concrete valid one-candle
dataset `dfValido`. -/
theorem apertura_sin_division_por_cero_witness :
    (validar_datos dfValido).ok = true ∧
    ((∀ r ∈ dfValido, precio_min ≤ r.open_ ∧ 0 < r.open_) ∧
     (∀ d ∈ calcular_estadisticas_diarias (fun q => q)
          (enriquecer_datos id (validar_datos dfValido).df),
        precio_min ≤ d.open_ ∧ d.open_ ≠ 0) ∧
     (∀ s ∈ calcular_estadisticas_por_sesion (enriquecer_datos id (validar_datos dfValido).df),
        precio_min ≤ s.open_ ∧ s.open_ ≠ 0)) := by
  have hok : (validar_datos dfValido).ok = true := by
    simp only [validar_datos, dfValido, columnasPrecio, minBajoLimite, maxSobreLimite,
      minimoQ, maximoQ, precio_min, precio_max, volumen_min, check_high_low, check_ohlc,
      List.countP_cons, List.countP_nil, List.map_cons, List.map_nil, List.any_cons,
      List.any_nil]
    norm_num
  exact ⟨hok, apertura_sin_division_por_cero (fun q => q) id dfValido hok⟩

/-- C5: a session-handoff pattern (ASIA-strong-then-EUROPA, or
EUROPA-strong-then-NY) is emitted exactly when both pivot columns exist and
the conditioning subset — the days whose first-session range is ≥ that
session's own 75th percentile — has strictly more than 3 days; with 3 or
fewer days no pattern is emitted for that pair, whatever the conditional
probability. -/
theorem patron_sesion_solo_con_muestra (stats : List SessionStat) :
    ((analizar_patron_sesion_previa stats).1 ≠ none ↔
      tieneSesion stats Sesion.ASIA = true ∧ tieneSesion stats Sesion.EUROPA = true ∧
      3 < (fechasPrimeraFuerte stats Sesion.ASIA).length) ∧
    ((analizar_patron_sesion_previa stats).2 ≠ none ↔
      tieneSesion stats Sesion.EUROPA = true ∧ tieneSesion stats Sesion.NY = true ∧
      3 < (fechasPrimeraFuerte stats Sesion.EUROPA).length) := by
  constructor
  · simp only [analizar_patron_sesion_previa]
    by_cases h1 : (tieneSesion stats Sesion.ASIA && tieneSesion stats Sesion.EUROPA) = true
    · rw [if_pos h1]
      rw [Bool.and_eq_true] at h1
      by_cases h2 : 3 < (fechasPrimeraFuerte stats Sesion.ASIA).length
      · simp [if_pos h2, h1.1, h1.2, h2]
      · simp [if_neg h2, h2]
    · rw [if_neg h1]
      rw [Bool.and_eq_true] at h1
      simp only [ne_eq]
      constructor
      · intro hfalse
        exact absurd trivial hfalse
      · intro ⟨ha, hb, _⟩
        exact absurd ⟨ha, hb⟩ h1
  · simp only [analizar_patron_sesion_previa]
    by_cases h1 : (tieneSesion stats Sesion.EUROPA && tieneSesion stats Sesion.NY) = true
    · rw [if_pos h1]
      rw [Bool.and_eq_true] at h1
      by_cases h2 : 3 < (fechasPrimeraFuerte stats Sesion.EUROPA).length
      · simp [if_pos h2, h1.1, h1.2, h2]
      · simp [if_neg h2, h2]
    · rw [if_neg h1]
      rw [Bool.and_eq_true] at h1
      simp only [ne_eq]
      constructor
      · intro hfalse
        exact absurd trivial hfalse
      · intro ⟨ha, hb, _⟩
        exact absurd ⟨ha, hb⟩ h1

/-- C6: every rule emitted by `generar_reglas_probabilisticas` respects the
per-type threshold table: day-of-week rules require probability ≥ 45 and
are ALTA exactly when ≥ 50; session-handoff rules require ≥ 60, ALTA
exactly when ≥ 70; streak rules require ≥ 50, ALTA exactly when ≥ 65; and
every rule's confidence is ALTA or MEDIA. -/
theorem umbrales_por_tipo (p : Patrones) (r : Regla)
    (hr : r ∈ generar_reglas_probabilisticas p) :
    (r.tipo = TipoRegla.DIA_SEMANA →
      45 ≤ r.probabilidad ∧ (r.confianza = Confianza.ALTA ↔ 50 ≤ r.probabilidad)) ∧
    (r.tipo = TipoRegla.SESION_PREVIA →
      60 ≤ r.probabilidad ∧ (r.confianza = Confianza.ALTA ↔ 70 ≤ r.probabilidad)) ∧
    (r.tipo = TipoRegla.RACHA →
      50 ≤ r.probabilidad ∧ (r.confianza = Confianza.ALTA ↔ 65 ≤ r.probabilidad)) ∧
    (r.confianza = Confianza.ALTA ∨ r.confianza = Confianza.MEDIA) := by
  simp only [generar_reglas_probabilisticas, List.mem_append, List.mem_flatMap] at hr
  rcases hr with (⟨item, _, hrule⟩ | ⟨item, _, hrule⟩) | ⟨item, _, hrule⟩
  · by_cases h45f : (45 : ℚ) ≤ item.2.prob_fuerte
    · rw [reglasDiaSemana, if_pos h45f, List.mem_singleton] at hrule
      subst hrule
      by_cases h50 : (50 : ℚ) ≤ item.2.prob_fuerte
      · simp [h45f, h50]
      · simp [h45f, h50]
    · by_cases h45l : (45 : ℚ) ≤ item.2.prob_lateral
      · rw [reglasDiaSemana, if_neg h45f, if_pos h45l, List.mem_singleton] at hrule
        subst hrule
        by_cases h50 : (50 : ℚ) ≤ item.2.prob_lateral
        · simp [h45l, h50]
        · simp [h45l, h50]
      · rw [reglasDiaSemana, if_neg h45f, if_neg h45l] at hrule
        cases hrule
  · by_cases h60 : (60 : ℚ) ≤ item.2.probabilidad
    · rw [reglasSesionPrevia, if_pos h60, List.mem_singleton] at hrule
      subst hrule
      by_cases h70 : (70 : ℚ) ≤ item.2.probabilidad
      · simp [h60, h70]
      · simp [h60, h70]
    · rw [reglasSesionPrevia, if_neg h60] at hrule
      cases hrule
  · rw [reglasRacha] at hrule
    rcases hpf : item.2.probabilidad_fuerte with _ | pf
    · rcases hpl : item.2.probabilidad_lateral with _ | pl
      · simp [hpf, hpl] at hrule
      · simp only [hpf, hpl, Option.getD_some] at hrule
        by_cases h50l : (50 : ℚ) ≤ pl
        · rw [if_neg (by simp), if_pos (by simp [h50l]), List.mem_singleton] at hrule
          subst hrule
          by_cases h65 : (65 : ℚ) ≤ pl
          · simp [h50l, h65]
          · simp [h50l, h65]
        · rw [if_neg (by simp), if_neg (by simp [h50l])] at hrule
          cases hrule
    · simp only [hpf, Option.getD_some] at hrule
      by_cases h50f : (50 : ℚ) ≤ pf
      · rw [if_pos (by simp [h50f]), List.mem_singleton] at hrule
        subst hrule
        by_cases h65 : (65 : ℚ) ≤ pf
        · simp [h50f, h65]
        · simp [h50f, h65]
      · rw [if_neg (by simp [h50f])] at hrule
        rcases hpl : item.2.probabilidad_lateral with _ | pl
        · simp [hpl] at hrule
        · simp only [hpl, Option.getD_some] at hrule
          by_cases h50l : (50 : ℚ) ≤ pl
          · rw [if_pos (by simp [h50l]), List.mem_singleton] at hrule
            subst hrule
            by_cases h65 : (65 : ℚ) ≤ pl
            · simp [h50l, h65]
            · simp [h50l, h65]
          · rw [if_neg (by simp [h50l])] at hrule
            cases hrule

/-- Witness for C6: the theorem applied to the one rule generated from the
concrete 55%-FUERTE Monday pattern. -/
theorem umbrales_por_tipo_witness :
    (generar_reglas_probabilisticas patronesEjemplo).getD 0 reglaDummy ∈
      generar_reglas_probabilisticas patronesEjemplo ∧
    ((((generar_reglas_probabilisticas patronesEjemplo).getD 0 reglaDummy).tipo =
        TipoRegla.DIA_SEMANA →
      45 ≤ ((generar_reglas_probabilisticas patronesEjemplo).getD 0 reglaDummy).probabilidad ∧
      (((generar_reglas_probabilisticas patronesEjemplo).getD 0 reglaDummy).confianza =
          Confianza.ALTA ↔
        50 ≤ ((generar_reglas_probabilisticas patronesEjemplo).getD 0 reglaDummy).probabilidad)) ∧
    ((((generar_reglas_probabilisticas patronesEjemplo).getD 0 reglaDummy).tipo =
        TipoRegla.SESION_PREVIA →
      60 ≤ ((generar_reglas_probabilisticas patronesEjemplo).getD 0 reglaDummy).probabilidad ∧
      (((generar_reglas_probabilisticas patronesEjemplo).getD 0 reglaDummy).confianza =
          Confianza.ALTA ↔
        70 ≤ ((generar_reglas_probabilisticas patronesEjemplo).getD 0 reglaDummy).probabilidad))) ∧
    ((((generar_reglas_probabilisticas patronesEjemplo).getD 0 reglaDummy).tipo =
        TipoRegla.RACHA →
      50 ≤ ((generar_reglas_probabilisticas patronesEjemplo).getD 0 reglaDummy).probabilidad ∧
      (((generar_reglas_probabilisticas patronesEjemplo).getD 0 reglaDummy).confianza =
          Confianza.ALTA ↔
        65 ≤ ((generar_reglas_probabilisticas patronesEjemplo).getD 0 reglaDummy).probabilidad))) ∧
    (((generar_reglas_probabilisticas patronesEjemplo).getD 0 reglaDummy).confianza =
        Confianza.ALTA ∨
      ((generar_reglas_probabilisticas patronesEjemplo).getD 0 reglaDummy).confianza =
        Confianza.MEDIA)) := by
  have hlen : 0 < (generar_reglas_probabilisticas patronesEjemplo).length := by
    norm_num [generar_reglas_probabilisticas, patronesEjemplo, reglasDiaSemana]
  have hmem : (generar_reglas_probabilisticas patronesEjemplo).getD 0 reglaDummy ∈
      generar_reglas_probabilisticas patronesEjemplo := by
    rw [List.getD_eq_getElem _ reglaDummy hlen]
    exact List.getElem_mem hlen
  exact ⟨hmem, umbrales_por_tipo patronesEjemplo _ hmem⟩

/-- The run accumulated by `rachasAux` is emitted first, with the class it
was opened with. -/
theorem rachasAux_cons (l : List DailyStat) :
    ∀ (c : Option Clasificacion) (fi ff d : ℕ),
    ∃ r resto, rachasAux c fi ff d l = r :: resto ∧ r.tipo = c := by
  induction l with
  | nil => exact fun c fi ff d => ⟨_, [], rfl, rfl⟩
  | cons x xs ih =>
    intro c fi ff d
    by_cases hx : x.clasificacion = c
    · simp only [rachasAux, if_pos hx]
      exact ih c fi x.fecha (d + 1)
    · simp only [rachasAux, if_neg hx]
      exact ⟨_, _, rfl, rfl⟩

/-- Adjacent runs produced by the grouping carry different classes:
each reported run is maximal. -/
theorem rachasAux_chain (l : List DailyStat) :
    ∀ (c : Option Clasificacion) (fi ff d : ℕ),
    List.Chain' (fun a b => a.tipo ≠ b.tipo) (rachasAux c fi ff d l) := by
  induction l with
  | nil =>
    intro c fi ff d
    simp [rachasAux]
  | cons x xs ih =>
    intro c fi ff d
    by_cases hx : x.clasificacion = c
    · simp only [rachasAux, if_pos hx]
      exact ih c fi x.fecha (d + 1)
    · simp only [rachasAux, if_neg hx]
      obtain ⟨r, resto, heq, htipo⟩ := rachasAux_cons xs x.clasificacion x.fecha x.fecha 1
      rw [heq, List.chain'_cons]
      constructor
      · rw [htipo]
        exact fun hcc => hx hcc.symm
      · rw [← heq]
        exact ih x.clasificacion x.fecha x.fecha 1

/-- The run lengths produced by the grouping add up to the number of rows:
the runs partition the day sequence. -/
theorem rachasAux_sum (l : List DailyStat) :
    ∀ (c : Option Clasificacion) (fi ff d : ℕ),
    ((rachasAux c fi ff d l).map (·.duracion)).sum = d + l.length := by
  induction l with
  | nil =>
    intro c fi ff d
    simp [rachasAux]
  | cons x xs ih =>
    intro c fi ff d
    by_cases hx : x.clasificacion = c
    · simp only [rachasAux, if_pos hx, ih]
      simp only [List.length_cons]
      omega
    · simp only [rachasAux, if_neg hx, List.map_cons, List.sum_cons, ih]
      simp only [List.length_cons]
      omega

/-- Maximality for the full grouping. -/
theorem agruparRachas_chain (l : List DailyStat) :
    List.Chain' (fun a b => a.tipo ≠ b.tipo) (agruparRachas l) := by
  cases l with
  | nil => simp [agruparRachas]
  | cons x xs => exact rachasAux_chain xs x.clasificacion x.fecha x.fecha 1

/-- Partition property for the full grouping. -/
theorem agruparRachas_sum (l : List DailyStat) :
    ((agruparRachas l).map (·.duracion)).sum = l.length := by
  cases l with
  | nil => simp [agruparRachas]
  | cons x xs =>
    simp only [agruparRachas, rachasAux_sum, List.length_cons]
    omega

/-- C7: `detectar_rachas` groups the chronologically ordered classified
days into maximal runs of equal classification (adjacent reported runs
differ in class and the run lengths partition the day sequence) and keeps
exactly the runs of length ≥ 3 with their class, start date, end date and
duration; on the sequence FUERTE, FUERTE, FUERTE, LATERAL, LATERAL it
returns exactly one streak: FUERTE with duration 3 over the first three
dates (the LATERAL run of length 2 is excluded). -/
theorem detectar_rachas_correcto :
    (detectar_rachas diasRachaEjemplo =
      [{ tipo := some Clasificacion.FUERTE, fecha_inicio := 0, fecha_fin := 2, duracion := 3 }]) ∧
    (∀ l : List DailyStat, ∀ r ∈ detectar_rachas l,
      3 ≤ r.duracion ∧
        r ∈ agruparRachas (List.insertionSort (fun a b => a.fecha ≤ b.fecha) l)) ∧
    (∀ l : List DailyStat,
      List.Chain' (fun a b => a.tipo ≠ b.tipo)
        (agruparRachas (List.insertionSort (fun a b => a.fecha ≤ b.fecha) l))) ∧
    (∀ l : List DailyStat,
      ((agruparRachas (List.insertionSort (fun a b => a.fecha ≤ b.fecha) l)).map
        (·.duracion)).sum = l.length) := by
  refine ⟨?_, ?_, ?_, ?_⟩
  · decide
  · intro l r hr
    rw [detectar_rachas, List.mem_filter] at hr
    exact ⟨of_decide_eq_true hr.2, hr.1⟩
  · intro l
    exact agruparRachas_chain _
  · intro l
    rw [agruparRachas_sum]
    exact (List.perm_insertionSort _ l).length_eq

/-- Witness for C7: the universally quantified filter part of the theorem
applied to the concrete streak found in the example sequence. -/
theorem detectar_rachas_correcto_witness :
    (⟨some Clasificacion.FUERTE, 0, 2, 3⟩ : Racha) ∈ detectar_rachas diasRachaEjemplo ∧
    (3 ≤ (⟨some Clasificacion.FUERTE, 0, 2, 3⟩ : Racha).duracion ∧
      (⟨some Clasificacion.FUERTE, 0, 2, 3⟩ : Racha) ∈
        agruparRachas (List.insertionSort (fun a b => a.fecha ≤ b.fecha) diasRachaEjemplo)) := by
  have hmem : (⟨some Clasificacion.FUERTE, 0, 2, 3⟩ : Racha) ∈
      detectar_rachas diasRachaEjemplo := by
    rw [detectar_rachas_correcto.1]
    exact List.mem_singleton.mpr rfl
  exact ⟨hmem, detectar_rachas_correcto.2.1 diasRachaEjemplo _ hmem⟩

/-- Allocation leaves every existing cell unchanged. -/
theorem alojar_leer_bajo (h : Heap) (v : CeldaDF) {r' : ℕ} (hr : r' < h.celdas.length) :
    (h.alojar v).1.leer r' = h.leer r' := by
  simp only [Heap.alojar, Heap.leer]
  exact List.getD_append _ _ _ _ hr

/-- Writing through one reference leaves every other cell unchanged. -/
theorem escribir_leer_otro (h : Heap) (r : ℕ) (v : CeldaDF) {r' : ℕ} (hne : r ≠ r') :
    (h.escribir r v).leer r' = h.leer r' := by
  simp only [Heap.escribir, Heap.leer]
  rcases Nat.lt_or_ge r' h.celdas.length with hlt | hge
  · rw [List.getD_eq_getElem _ _ (by simpa using hlt), List.getD_eq_getElem _ _ hlt]
    exact List.getElem_set_ne hne _
  · rw [List.getD_eq_default _ _ (by simpa using hge), List.getD_eq_default _ _ hge]

/-- `calcular_estadisticas_diarias` allocates a fresh stats frame and keeps
every pre-existing cell intact. -/
theorem opStatsDiarias_spec (sqrt : ℚ → ℚ) (base : ℕ) (h : Heap) (c : EstadoClasificador)
    (hlen : base ≤ h.celdas.length) (hc : ClfDesde base c) :
    base ≤ (opStatsDiarias sqrt h c).1.celdas.length ∧
    ClfDesde base (opStatsDiarias sqrt h c).2 ∧
    (opStatsDiarias sqrt h c).2.statsRef.isSome = true ∧
    (opStatsDiarias sqrt h c).2.percentiles = c.percentiles ∧
    (opStatsDiarias sqrt h c).2.clasifRef = c.clasifRef ∧
    (∀ r' : ℕ, r' < base → (opStatsDiarias sqrt h c).1.leer r' = h.leer r') := by
  obtain ⟨h1, h2, h3⟩ := hc
  refine ⟨?_, ⟨h1, ?_, h3⟩, rfl, rfl, rfl, ?_⟩
  · simp only [opStatsDiarias, Heap.alojar, List.length_append, List.length_cons,
      List.length_nil]
    omega
  · intro r hr
    have hreq : h.celdas.length = r := Option.some.inj hr
    omega
  · intro r' hr'
    exact alojar_leer_bajo h _ (lt_of_lt_of_le hr' hlen)

/-- `calcular_percentiles` (running the prior stage if missing) keeps every
pre-existing cell intact and leaves the instance with stats and percentiles
populated. -/
theorem opPercentiles_spec (sqrt : ℚ → ℚ) (base : ℕ) (h : Heap) (c : EstadoClasificador)
    (hlen : base ≤ h.celdas.length) (hc : ClfDesde base c) :
    base ≤ (opPercentiles sqrt h c).1.celdas.length ∧
    ClfDesde base (opPercentiles sqrt h c).2 ∧
    (opPercentiles sqrt h c).2.statsRef.isSome = true ∧
    (opPercentiles sqrt h c).2.percentiles.isSome = true ∧
    (opPercentiles sqrt h c).2.clasifRef = c.clasifRef ∧
    (∀ r' : ℕ, r' < base → (opPercentiles sqrt h c).1.leer r' = h.leer r') := by
  by_cases hn : c.statsRef.isNone
  · have hs := opStatsDiarias_spec sqrt base h c hlen hc
    simp only [opPercentiles, hn, if_true]
    obtain ⟨ha, ⟨b1, b2, b3⟩, hsome, _, hcl, hreads⟩ := hs
    exact ⟨ha, ⟨b1, b2, b3⟩, hsome, rfl, hcl, hreads⟩
  · simp only [opPercentiles, hn, if_false]
    obtain ⟨h1, h2, h3⟩ := hc
    refine ⟨hlen, ⟨h1, h2, h3⟩, ?_, rfl, rfl, fun r' _ => rfl⟩
    simp only [Bool.not_eq_true, Option.isNone_eq_false_iff] at hn
    exact hn

/-- `clasificar_dias` (running the prior stages if missing) writes only
through the classifier's own stats reference and a fresh copy: every cell
allocated before construction is intact afterwards. -/
theorem opClasificar_spec (sqrt : ℚ → ℚ) (base : ℕ) (h : Heap) (c : EstadoClasificador)
    (hlen : base ≤ h.celdas.length) (hc : ClfDesde base c) :
    base ≤ (opClasificar sqrt h c).1.celdas.length ∧
    ClfDesde base (opClasificar sqrt h c).2 ∧
    (opClasificar sqrt h c).2.clasifRef.isSome = true ∧
    (∀ r' : ℕ, r' < base → (opClasificar sqrt h c).1.leer r' = h.leer r') := by
  have paso1 :
      base ≤ (if c.statsRef.isNone then opStatsDiarias sqrt h c else (h, c)).1.celdas.length ∧
      ClfDesde base (if c.statsRef.isNone then opStatsDiarias sqrt h c else (h, c)).2 ∧
      (∀ r' : ℕ, r' < base →
        (if c.statsRef.isNone then opStatsDiarias sqrt h c else (h, c)).1.leer r' = h.leer r') := by
    by_cases hn : c.statsRef.isNone
    · have hs := opStatsDiarias_spec sqrt base h c hlen hc
      simp only [hn, if_true]
      exact ⟨hs.1, hs.2.1, hs.2.2.2.2.2⟩
    · simp only [hn, if_false]
      exact ⟨hlen, hc, fun r' _ => rfl⟩
  have hstats1 :
      (if c.statsRef.isNone then opStatsDiarias sqrt h c else (h, c)).2.statsRef.isSome
        = true := by
    by_cases hn : c.statsRef.isNone
    · have hs := opStatsDiarias_spec sqrt base h c hlen hc
      simp only [hn, if_true]
      exact hs.2.2.1
    · simp only [hn, if_false]
      simp only [Bool.not_eq_true, Option.isNone_eq_false_iff] at hn
      exact hn
  set par1 := if c.statsRef.isNone then opStatsDiarias sqrt h c else (h, c) with hpar1
  obtain ⟨hl1, hc1, hr1⟩ := paso1
  have paso2 :
      base ≤ (if par1.2.percentiles.isNone then opPercentiles sqrt par1.1 par1.2
        else par1).1.celdas.length ∧
      ClfDesde base (if par1.2.percentiles.isNone then opPercentiles sqrt par1.1 par1.2
        else par1).2 ∧
      (if par1.2.percentiles.isNone then opPercentiles sqrt par1.1 par1.2
        else par1).2.statsRef.isSome = true ∧
      (∀ r' : ℕ, r' < base →
        (if par1.2.percentiles.isNone then opPercentiles sqrt par1.1 par1.2
          else par1).1.leer r' = par1.1.leer r') := by
    by_cases hn : par1.2.percentiles.isNone
    · have hs := opPercentiles_spec sqrt base par1.1 par1.2 hl1 hc1
      simp only [hn, if_true]
      exact ⟨hs.1, hs.2.1, hs.2.2.1, hs.2.2.2.2.2⟩
    · simp only [hn, if_false]
      exact ⟨hl1, hc1, hstats1, fun r' _ => rfl⟩
  set par2 := if par1.2.percentiles.isNone then opPercentiles sqrt par1.1 par1.2 else par1
    with hpar2
  obtain ⟨hl2, hc2, hs2, hr2⟩ := paso2
  obtain ⟨n, hn⟩ := Option.isSome_iff_exists.mp hs2
  have hbn : base ≤ n := by
    have hmem := hc2.2.1 n
    apply hmem
    rw [hn]
    rfl
  have hgetd : par2.2.statsRef.getD 0 = n := by
    rw [hn]
    rfl
  set nuevo := clasificar_dias sqrt (·.rango_diario) (leerDiarias par2.1 n) par2.2.percentiles
    with hnuevo
  have hres : opClasificar sqrt h c =
      (((par2.1.escribir n (CeldaDF.diarias nuevo)).alojar (CeldaDF.diarias nuevo)).1,
       { par2.2 with
          clasifRef := some ((par2.1.escribir n (CeldaDF.diarias nuevo)).alojar
            (CeldaDF.diarias nuevo)).2 }) := by
    simp only [opClasificar, ← hpar1, ← hpar2, hgetd, hnuevo]
  rw [hres]
  have hlen3 : ((par2.1.escribir n (CeldaDF.diarias nuevo)).alojar
      (CeldaDF.diarias nuevo)).1.celdas.length = par2.1.celdas.length + 1 := by
    simp [Heap.alojar, Heap.escribir]
  have href3 : ((par2.1.escribir n (CeldaDF.diarias nuevo)).alojar
      (CeldaDF.diarias nuevo)).2 = par2.1.celdas.length := by
    simp [Heap.alojar, Heap.escribir]
  refine ⟨?_, ?_, rfl, ?_⟩
  · rw [hlen3]
    omega
  · obtain ⟨b1, b2, b3⟩ := hc2
    refine ⟨b1, b2, ?_⟩
    intro r hr
    have hreq : ((par2.1.escribir n (CeldaDF.diarias nuevo)).alojar
        (CeldaDF.diarias nuevo)).2 = r := Option.some.inj hr
    rw [href3] at hreq
    omega
  · intro r' hr'
    have e1 : ((par2.1.escribir n (CeldaDF.diarias nuevo)).alojar
        (CeldaDF.diarias nuevo)).1.leer r' =
        (par2.1.escribir n (CeldaDF.diarias nuevo)).leer r' := by
      apply alojar_leer_bajo
      simp only [Heap.escribir, List.length_set]
      omega
    rw [e1, escribir_leer_otro _ _ _ (by omega : n ≠ r'), hr2 r' hr', hr1 r' hr']

/-- `detectar_rachas` (running the prior stages if missing) keeps every
pre-existing cell intact. -/
theorem opRachas_spec (sqrt : ℚ → ℚ) (base : ℕ) (h : Heap) (c : EstadoClasificador)
    (hlen : base ≤ h.celdas.length) (hc : ClfDesde base c) :
    base ≤ (opRachas sqrt h c).1.celdas.length ∧
    ClfDesde base (opRachas sqrt h c).2.1 ∧
    (∀ r' : ℕ, r' < base → (opRachas sqrt h c).1.leer r' = h.leer r') := by
  by_cases hn : c.clasifRef.isNone
  · have hs := opClasificar_spec sqrt base h c hlen hc
    simp only [opRachas, hn, if_true]
    exact ⟨hs.1, hs.2.1, hs.2.2.2⟩
  · simp only [opRachas, hn, if_false]
    exact ⟨hlen, hc, fun r' _ => rfl⟩

/-- `calcular_estadisticas_por_sesion` allocates a fresh stats frame and
keeps every pre-existing cell intact. -/
theorem opStatsSesiones_spec (base : ℕ) (h : Heap) (a : EstadoAnalytics)
    (hlen : base ≤ h.celdas.length) (ha : AnaDesde base a) :
    base ≤ (opStatsSesiones h a).1.celdas.length ∧
    AnaDesde base (opStatsSesiones h a).2 ∧
    (∀ r' : ℕ, r' < base → (opStatsSesiones h a).1.leer r' = h.leer r') := by
  obtain ⟨a1, a2⟩ := ha
  refine ⟨?_, ⟨a1, ?_⟩, ?_⟩
  · simp only [opStatsSesiones, Heap.alojar, List.length_append, List.length_cons,
      List.length_nil]
    omega
  · intro r hr
    have hreq : h.celdas.length = r := Option.some.inj hr
    omega
  · intro r' hr'
    exact alojar_leer_bajo h _ (lt_of_lt_of_le hr' hlen)

/-- `detectar_correlacion_sesiones` (running the prior stage if missing)
keeps every pre-existing cell intact. -/
theorem opCorrelaciones_spec (sqrt : ℚ → ℚ) (base : ℕ) (h : Heap) (a : EstadoAnalytics)
    (hlen : base ≤ h.celdas.length) (ha : AnaDesde base a) :
    base ≤ (opCorrelaciones sqrt h a).1.celdas.length ∧
    AnaDesde base (opCorrelaciones sqrt h a).2 ∧
    (∀ r' : ℕ, r' < base → (opCorrelaciones sqrt h a).1.leer r' = h.leer r') := by
  by_cases hn : a.statsSesRef.isNone
  · have hs := opStatsSesiones_spec base h a hlen ha
    simp only [opCorrelaciones, hn, if_true]
    exact ⟨hs.1, hs.2.1, hs.2.2⟩
  · simp only [opCorrelaciones, hn, if_false]
    exact ⟨hlen, ⟨ha.1, ha.2⟩, fun r' _ => rfl⟩

/-- One pipeline operation preserves the invariant and every cell allocated
before construction. -/
theorem pasoPipeline_spec (sqrt : ℚ → ℚ) (base : ℕ) (h : Heap) (st : EstadoPipeline)
    (op : OpPipeline) (hlen : base ≤ h.celdas.length) (hr : RefsDesde base st) :
    base ≤ (pasoPipeline sqrt h st op).1.celdas.length ∧
    RefsDesde base (pasoPipeline sqrt h st op).2 ∧
    (∀ r' : ℕ, r' < base → (pasoPipeline sqrt h st op).1.leer r' = h.leer r') := by
  obtain ⟨hclf, hana⟩ := hr
  cases op with
  | estadisticas_diarias =>
    have hs := opStatsDiarias_spec sqrt base h st.clf hlen hclf
    exact ⟨hs.1, ⟨hs.2.1, hana⟩, hs.2.2.2.2.2⟩
  | percentiles =>
    have hs := opPercentiles_spec sqrt base h st.clf hlen hclf
    exact ⟨hs.1, ⟨hs.2.1, hana⟩, hs.2.2.2.2.2⟩
  | clasificar =>
    have hs := opClasificar_spec sqrt base h st.clf hlen hclf
    exact ⟨hs.1, ⟨hs.2.1, hana⟩, hs.2.2.2⟩
  | rachas =>
    have hs := opRachas_spec sqrt base h st.clf hlen hclf
    exact ⟨hs.1, ⟨hs.2.1, hana⟩, hs.2.2⟩
  | estadisticas_sesion =>
    have hs := opStatsSesiones_spec base h st.ana hlen hana
    exact ⟨hs.1, ⟨hclf, hs.2.1⟩, hs.2.2⟩
  | correlacion =>
    have hs := opCorrelaciones_spec sqrt base h st.ana hlen hana
    exact ⟨hs.1, ⟨hclf, hs.2.1⟩, hs.2.2⟩

/-- Any sequence of pipeline operations preserves the invariant and every
cell allocated before construction. -/
theorem ejecutarPipeline_spec (sqrt : ℚ → ℚ) (base : ℕ) (ops : List OpPipeline) :
    ∀ (h : Heap) (st : EstadoPipeline), base ≤ h.celdas.length → RefsDesde base st →
    base ≤ (ejecutarPipeline sqrt h st ops).1.celdas.length ∧
    RefsDesde base (ejecutarPipeline sqrt h st ops).2 ∧
    (∀ r' : ℕ, r' < base → (ejecutarPipeline sqrt h st ops).1.leer r' = h.leer r') := by
  induction ops with
  | nil => exact fun h st hl hr => ⟨hl, hr, fun r' _ => rfl⟩
  | cons op resto ih =>
    intro h st hl hr
    have hp := pasoPipeline_spec sqrt base h st op hl hr
    have hi := ih (pasoPipeline sqrt h st op).1 (pasoPipeline sqrt h st op).2 hp.1 hp.2.1
    refine ⟨hi.1, hi.2.1, ?_⟩
    intro r' hr'
    calc (ejecutarPipeline sqrt h st (op :: resto)).1.leer r'
        = (ejecutarPipeline sqrt (pasoPipeline sqrt h st op).1
            (pasoPipeline sqrt h st op).2 resto).1.leer r' := rfl
      _ = (pasoPipeline sqrt h st op).1.leer r' := hi.2.2 r' hr'
      _ = h.leer r' := hp.2.2 r' hr'

/-- `DayClassifier.__init__`'s copy: allocation only. -/
theorem initClasificador_spec (h : Heap) (caller : ℕ) (base : ℕ)
    (hlen : base ≤ h.celdas.length) :
    base ≤ (initClasificador h caller).1.celdas.length ∧
    base ≤ (initClasificador h caller).2.dfRef ∧
    (initClasificador h caller).2.statsRef = none ∧
    (initClasificador h caller).2.clasifRef = none ∧
    (∀ r' : ℕ, r' < base → (initClasificador h caller).1.leer r' = h.leer r') := by
  refine ⟨?_, hlen, rfl, rfl, ?_⟩
  · simp only [initClasificador, Heap.alojar, List.length_append, List.length_cons,
      List.length_nil]
    omega
  · intro r' hr'
    exact alojar_leer_bajo h _ (lt_of_lt_of_le hr' hlen)

/-- `SessionAnalytics.__init__`'s copy: allocation only. -/
theorem initAnalytics_spec (h : Heap) (caller : ℕ) (base : ℕ)
    (hlen : base ≤ h.celdas.length) :
    base ≤ (initAnalytics h caller).1.celdas.length ∧
    base ≤ (initAnalytics h caller).2.dfRef ∧
    (initAnalytics h caller).2.statsSesRef = none ∧
    (∀ r' : ℕ, r' < base → (initAnalytics h caller).1.leer r' = h.leer r') := by
  refine ⟨?_, hlen, rfl, ?_⟩
  · simp only [initAnalytics, Heap.alojar, List.length_append, List.length_cons,
      List.length_nil]
    omega
  · intro r' hr'
    exact alojar_leer_bajo h _ (lt_of_lt_of_le hr' hlen)

/-- C10: `DayClassifier` and `SessionAnalytics` copy the input frame at
construction (`self.df = df.copy()`), so after constructing both over a
caller-owned frame and running any sequence of
`calcular_estadisticas_diarias`, `calcular_percentiles`, `clasificar_dias`,
`detectar_rachas`, `calcular_estadisticas_por_sesion`,
`detectar_correlacion_sesiones` — including the in-place column writes that
`clasificar_dias` performs — the caller's original frame is unchanged. -/
theorem copia_defensiva (sqrt : ℚ → ℚ) (h0 : Heap) (caller : ℕ) (ops : List OpPipeline)
    (hc : caller < h0.celdas.length) :
    ((ejecutarPipeline sqrt (initPipeline h0 caller).1 (initPipeline h0 caller).2 ops).1).leer
      caller = h0.leer caller := by
  set base := h0.celdas.length with hbase
  have hClf := initClasificador_spec h0 caller base (le_refl base)
  have hAna := initAnalytics_spec (initClasificador h0 caller).1 caller base hClf.1
  have hinit_len : base ≤ (initPipeline h0 caller).1.celdas.length := hAna.1
  have hinit_refs : RefsDesde base (initPipeline h0 caller).2 := by
    refine ⟨⟨hClf.2.1, ?_, ?_⟩, hAna.2.1, ?_⟩
    · intro r hr
      have hnone : (initPipeline h0 caller).2.clf.statsRef = none := hClf.2.2.1
      rw [hnone] at hr
      exact absurd hr (by simp)
    · intro r hr
      have hnone : (initPipeline h0 caller).2.clf.clasifRef = none := hClf.2.2.2.1
      rw [hnone] at hr
      exact absurd hr (by simp)
    · intro r hr
      have hnone : (initPipeline h0 caller).2.ana.statsSesRef = none := hAna.2.2.1
      rw [hnone] at hr
      exact absurd hr (by simp)
  have hrun := ejecutarPipeline_spec sqrt base ops (initPipeline h0 caller).1
    (initPipeline h0 caller).2 hinit_len hinit_refs
  rw [hrun.2.2 caller hc]
  show (initAnalytics (initClasificador h0 caller).1 caller).1.leer caller = h0.leer caller
  rw [hAna.2.2.2 caller hc, hClf.2.2.2.2 caller hc]

/-- Witness for C10: the theorem applied to a concrete one-cell heap and
the full six-operation run. -/
theorem copia_defensiva_witness :
    0 < heapEjemplo.celdas.length ∧
    ((ejecutarPipeline (fun q => q) (initPipeline heapEjemplo 0).1
      (initPipeline heapEjemplo 0).2
      [OpPipeline.estadisticas_diarias, OpPipeline.percentiles, OpPipeline.clasificar,
       OpPipeline.rachas, OpPipeline.estadisticas_sesion,
       OpPipeline.correlacion]).1).leer 0 = heapEjemplo.leer 0 :=
  ⟨by decide, copia_defensiva (fun q => q) heapEjemplo 0 _ (by decide)⟩
